import Mathlib

set_option autoImplicit false

/-!
Formal model of the OML language implementation: the tokenizer
(`tokenizer.ts`), recursive-descent parser (`parser.ts`), semantic analyzer
(`semantic.ts`), and tree-walking interpreter (`OMLInterpreter` in
`visitors.ts`), over the AST node classes of `ast.ts`.

Modelling conventions:
* JavaScript `Map`s and plain objects used as string-keyed records become
  insertion-ordered association lists (`mapSet` keeps an existing key's
  position, as `Map.set` does).
* JavaScript numbers are modelled as exact fractions (`JSNum`).  Every
  program analysed below computes only with small integers, where double
  and exact arithmetic agree; `NaN`/`Infinity` do not arise and are not
  modelled.
* JavaScript exceptions are a single result channel (`EResult.thrown`)
  whose payload is an arbitrary value: the interpreter throws plain values
  for `return` and `Error` objects (`Value.errObj`) for faults, and a
  `catch` observes whichever payload arrives.
* Recursive walks take an explicit fuel argument (first argument, a `Nat`)
  so that every definition is structurally recursive and kernel-evaluable;
  fuel exhaustion is reported as a distinct outcome that no theorem below
  ever treats as a program behaviour.
-/

/-- `Map.set` semantics: an existing key keeps its position and gets the new
value, a new key is appended at the end (JavaScript insertion order). -/
def mapSet {α : Type} : List (String × α) → String → α → List (String × α)
  | [], k, v => [(k, v)]
  | (k', v') :: rest, k, v =>
    if k' = k then (k, v) :: rest else (k', v') :: mapSet rest k v

/-- `Map.get` / object-property lookup: the value stored under a key. -/
def mapGet {α : Type} : List (String × α) → String → Option α
  | [], _ => none
  | (k', v) :: rest, k => if k' = k then some v else mapGet rest k

/-- `Map.has` / truthy property test. -/
def mapHas {α : Type} (m : List (String × α)) (k : String) : Bool :=
  (mapGet m k).isSome

/-- Fuel-driven Euclidean gcd (kernel-evaluable). -/
def natGcdFuel : Nat → Nat → Nat → Nat
  | 0, _, b => b
  | _ + 1, 0, b => b
  | f + 1, a + 1, b => natGcdFuel f (b % (a + 1)) (a + 1)

def pow10 : Nat → Nat
  | 0 => 1
  | n + 1 => 10 * pow10 n

/-- A JavaScript number, kept as an exact fraction.  Integer-valued results
of the programs analysed here always carry denominator 1. -/
structure JSNum where
  num : Int
  den : Nat
deriving DecidableEq

def jsNumAdd (a b : JSNum) : JSNum := ⟨a.num * b.den + b.num * a.den, a.den * b.den⟩

def jsNumSub (a b : JSNum) : JSNum := ⟨a.num * b.den - b.num * a.den, a.den * b.den⟩

def jsNumMul (a b : JSNum) : JSNum := ⟨a.num * b.num, a.den * b.den⟩

/-- Division of exact fractions.  (JavaScript division by zero yields
`Infinity`, which no analysed program performs and which this model does
not represent.) -/
def jsNumDiv (a b : JSNum) : JSNum :=
  let d : Int := (a.den : Int) * b.num
  ⟨(if d < 0 then -1 else 1) * a.num * b.den, d.natAbs⟩

def jsNumNeg (a : JSNum) : JSNum := ⟨-a.num, a.den⟩

def jsNumEq (a b : JSNum) : Bool := a.num * b.den = b.num * a.den

def jsNumLt (a b : JSNum) : Bool := a.num * b.den < b.num * a.den

def jsNumLe (a b : JSNum) : Bool := a.num * b.den ≤ b.num * a.den

/-- Decimal rendering of a number, as JavaScript string conversion shows it
(integers without a decimal point, terminating decimals with one).
Non-terminating decimal expansions do not occur in the programs analysed
here. -/
def jsNumToString (v : JSNum) : String :=
  let g := natGcdFuel 64 v.num.natAbs v.den
  let g := if g = 0 then 1 else g
  let n : Int := v.num / (g : Int)
  let d : Nat := v.den / g
  if d = 1 then n.repr
  else
    match (List.range 40).find? (fun k => pow10 k % d = 0) with
    | some k =>
      let sign := if n < 0 then "-" else ""
      let scaled := n.natAbs * pow10 k / d
      let ip := scaled / pow10 k
      let fp := scaled % pow10 k
      let fpStr := Nat.repr fp
      let pad := String.mk (List.replicate (k - fpStr.length) '0')
      sign ++ Nat.repr ip ++ "." ++ pad ++ fpStr
    | none => n.repr ++ "/" ++ Nat.repr d

/-- A scalar literal carried by a `LiteralNode` (number, string or boolean,
as produced by the parser). -/
inductive LitValue where
  | num (value : JSNum)
  | str (value : String)
  | bool (value : Bool)
deriving DecidableEq

/-- The AST node variants of `ast.ts` (one constructor per node class). -/
inductive ASTNode where
  | program (statements : List ASTNode)
  | variableDeclaration (name : String) (varType : String) (value : Option ASTNode)
  | assignment (nameOrObjectPath : ASTNode) (value : ASTNode)
  | binaryExpression (left : ASTNode) (operator : String) (right : ASTNode)
  | unaryExpression (operator : String) (operand : ASTNode)
  | literal (value : LitValue)
  | objectLiteral (properties : List (String × ASTNode))
  | identifier (name : String)
  | indexAccess (object : ASTNode) (index : ASTNode)
  | indexAssignment (object : ASTNode) (index : ASTNode) (value : ASTNode)
  | functionDeclaration (name : String) (parameters : List (String × String))
      (returnType : String) (body : List ASTNode)
  | functionCall (name : String) (args : List ASTNode)
  | branching (condition : ASTNode) (trueBranch : List ASTNode) (falseBranch : List ASTNode)
  | loop (condition : ASTNode) (body : List ASTNode)
  | output (value : ASTNode)
  | returnNode (returnValue : ASTNode)
  | typeConstruction (ctype : String) (values : List ASTNode)
  | structType (name : String) (fields : List (String × String))
  | propertyAccess (object : ASTNode) (property : String) (isAssignment : Bool)

/-- Does the second character list start with the first one? -/
def charsLead : List Char → List Char → Bool
  | [], _ => true
  | _ :: _, [] => false
  | c :: cs, d :: ds => c = d && charsLead cs ds

/-- `String.prototype.startsWith`. -/
def strStartsWith (s lead : String) : Bool := charsLead lead.data s.data

/-- `String.prototype.slice(a, -1)`: from index `a` up to (excluding) the
last character. -/
def jsSliceToLast (s : String) (a : Nat) : String :=
  String.mk ((s.data.drop a).take (s.data.length - a - 1))

/-- SemanticAnalyzer.hasReturnStatement (`semantic.ts`): searches the
statement list for a `ReturnNode`, recursing into both arms of a branching
and into loop bodies at any depth. -/
def hasReturnStatement : Nat → List ASTNode → Bool
  | 0, _ => false
  | _ + 1, [] => false
  | n + 1, stmt :: rest =>
    (match stmt with
     | .returnNode _ => true
     | .branching _ tb fb => hasReturnStatement n tb || hasReturnStatement n fb
     | .loop _ body => hasReturnStatement n body
     | _ => false)
    || hasReturnStatement n rest

/-- A registered function declaration (entry of the analyzer's and the
interpreter's function tables). -/
structure FuncSig where
  parameters : List (String × String)
  returnType : String
  body : List ASTNode

/-- The mutable state of one `SemanticAnalyzer` instance: the scope chain
(innermost frame first, never empty), the function table, the return type
of the function currently being checked (`null` outside any function), and
the struct-type registry. -/
structure AState where
  scopes : List (List (String × String))
  functions : List (String × FuncSig)
  currentFunctionReturnType : Option String
  structTypes : List (String × List (String × String))

/-- A newly constructed `SemanticAnalyzer`. -/
def freshAnalyzer : AState := ⟨[[]], [], none, []⟩

/-- SymbolTable.lookupVariable: innermost-first walk of the scope chain. -/
def lookupVariable : List (List (String × String)) → String → Option String
  | [], _ => none
  | frame :: outer, name =>
    match mapGet frame name with
    | some t => some t
    | none => lookupVariable outer name

/-- SymbolTable.declareVariable on the analyzer's current (innermost) scope. -/
def declareVariable (s : AState) (name type : String) : Except String AState :=
  match s.scopes with
  | [] => .error "No enclosing scope to exit to."
  | frame :: outer =>
    if mapHas frame name then
      .error ("Variable \"" ++ name ++ "\" is already declared in this scope.")
    else .ok { s with scopes := mapSet frame name type :: outer }

/-- SemanticAnalyzer.enterScope: push a fresh nested scope. -/
def enterScope (s : AState) : AState := { s with scopes := [] :: s.scopes }

/-- SemanticAnalyzer.exitScope: pop back to the enclosing scope. -/
def exitScope (s : AState) : Except String AState :=
  match s.scopes with
  | _ :: f :: outer => .ok { s with scopes := f :: outer }
  | _ => .error "No enclosing scope to exit to."

/-- How an `undefined` type value prints inside an error message. -/
def showTypeJS : Option String → String
  | some t => t
  | none => "undefined"

/-- How the analyzer's `currentFunctionReturnType` (a string or `null`)
prints inside an error message. -/
def showRetJS : Option String → String
  | some t => t
  | none => "null"

/-- SemanticAnalyzer.visitLiteralNode: the type name of a literal. -/
def litTypeName : LitValue → String
  | .bool _ => "bool"
  | .num _ => "number"
  | .str _ => "string"

/-- ObjectLiteralNode.isMatchingStruct (`ast.ts`): same field count, and
every literal key maps to a truthy type string in the struct's field map. -/
def isMatchingStruct (properties : List (String × ASTNode))
    (structFields : List (String × String)) : Bool :=
  decide (properties.length = structFields.length) &&
  properties.all (fun p =>
    match mapGet structFields p.1 with
    | some t => decide (t ≠ "")
    | none => false)

/-- ObjectLiteralNode.getType (`ast.ts`): the first registered struct type
(registration order) that structurally matches, as `object<Name>`; `null`
when none matches.  Several matches are not detected: the first one wins. -/
def objectLiteralGetType (properties : List (String × ASTNode)) :
    List (String × List (String × String)) → Option String
  | [] => none
  | (name, fields) :: rest =>
    if isMatchingStruct properties fields then some ("object<" ++ name ++ ">")
    else objectLiteralGetType properties rest

/-- Membership of a type in the scalar set accepted by concatenation. -/
def scalarIncludes : Option String → Bool
  | some t => ["string", "number", "bool"].contains t
  | none => false

/-- SemanticAnalyzer.visitFunctionDeclarationNode's parameter loop:
declare every parameter in the just-entered function scope. -/
def declParams : List (String × String) → AState → Except String AState
  | [], s => .ok s
  | (pname, ptype) :: rest, s => do
    let s ← declareVariable s pname ptype
    declParams rest s

mutual

/-- SemanticAnalyzer's `visit…` dispatch (`semantic.ts`): one case per AST
node class, returning the node's type (a string) or `undefined` for the
statement-shaped visitors, and threading the analyzer's mutable state.
Any violation aborts the whole analysis with the thrown error message. -/
def analyzeNodeGo : Nat → ASTNode → AState → Except String (Option String × AState)
  | 0, _, _ => .error "out of fuel"
  | n + 1, node, s =>
    match node with
    | .program stmts => do
      let s ← analyzeStmts n stmts s
      .ok (none, s)
    | .variableDeclaration name type value =>
      if mapHas (s.scopes.headD []) name then
        .error ("Variable '" ++ name ++ "' is already declared.")
      else do
        let s ← declareVariable s name type
        match value with
        | none => .ok (none, s)
        | some v => do
          let (valueType, s) ← analyzeNodeGo n v s
          if valueType ≠ some type then
            .error ("Type mismatch: expected '" ++ type ++ "', got '" ++
              showTypeJS valueType ++ "' in variable '" ++ name ++ "'.")
          else .ok (none, s)
    | .assignment target value =>
      match target with
      | .identifier varName =>
        match lookupVariable s.scopes varName with
        | none => .error ("Undeclared variable '" ++ varName ++ "'.")
        | some expectedType => do
          let (valueType, s) ← analyzeNodeGo n value s
          if valueType ≠ some expectedType then
            .error ("Type mismatch: expected '" ++ expectedType ++ "', got '" ++
              showTypeJS valueType ++ "' in assignment to '" ++ varName ++ "'.")
          else .ok (none, s)
      | .propertyAccess o p a => do
        let (propertyType, s) ← analyzeNodeGo n (.propertyAccess o p a) s
        let (valueType, s) ← analyzeNodeGo n value s
        if propertyType ≠ valueType then
          .error ("Type mismatch: expected '" ++ showTypeJS propertyType ++ "', got '" ++
            showTypeJS valueType ++ "' in assignment to property '" ++ p ++ "'.")
        else .ok (none, s)
      | _ => .error "Unsupported assignment target."
    | .functionDeclaration name params returnType body =>
      if mapHas s.functions name then
        .error ("Function '" ++ name ++ "' is already declared.")
      else do
        let s := { s with
          functions := mapSet s.functions name ⟨params, returnType, body⟩,
          currentFunctionReturnType := some returnType }
        let s := enterScope s
        let s ← declParams params s
        let s ← analyzeStmts n body s
        if s.currentFunctionReturnType ≠ some "void" ∧ hasReturnStatement n body = false then
          .error ("Missing return statement in function '" ++ name ++ "'.")
        else do
          let s ← exitScope s
          .ok (none, { s with currentFunctionReturnType := none })
    | .functionCall name args =>
      match mapGet s.functions name with
      | none => .error ("Function '" ++ name ++ "' is not declared.")
      | some func =>
        if args.length ≠ func.parameters.length then
          .error ("Function '" ++ name ++ "' expects " ++
            Nat.repr func.parameters.length ++ " arguments, but got " ++
            Nat.repr args.length ++ ".")
        else do
          let s ← analyzeCallArgs n name func.parameters args s
          .ok (some func.returnType, s)
    | .binaryExpression l op r => do
      let (leftType, s) ← analyzeNodeGo n l s
      let (rightType, s) ← analyzeNodeGo n r s
      if op = "." then
        if scalarIncludes leftType && scalarIncludes rightType then
          .ok (some "string", s)
        else
          .error ("Invalid types for concatenation: '" ++ showTypeJS leftType ++
            "' and '" ++ showTypeJS rightType ++ "'.")
      else if leftType ≠ rightType then
        .error ("Type mismatch in binary expression: left is '" ++ showTypeJS leftType ++
          "', right is '" ++ showTypeJS rightType ++ "'.")
      else if ["+", "-", "*", "/"].contains op then
        if leftType ≠ some "number" then
          .error ("Operator '" ++ op ++ "' requires numeric operands.")
        else .ok (some "number", s)
      else if ["==", "!=", "<", ">", "<=", ">="].contains op then
        .ok (some "bool", s)
      else if ["&&", "||"].contains op then
        if leftType ≠ some "bool" then
          .error ("Operator '" ++ op ++ "' requires boolean operands.")
        else .ok (some "bool", s)
      else .error ("Unsupported operator '" ++ op ++ "'.")
    | .literal v => .ok (some (litTypeName v), s)
    | .typeConstruction ctype values => do
      let (types, s) ← analyzeTypes n values s
      if strStartsWith ctype "array<" then
        let elementType := jsSliceToLast ctype 6
        if types.length = 1 then
          if types.headD none ≠ some "number" then
            .error ("Array size must be of type 'number', but got '" ++
              showTypeJS (types.headD none) ++ "'.")
          else .ok (some ctype, s)
        else
          match types.find? (fun t => t ≠ some elementType) with
          | some bad =>
            .error ("Array elements must be of type '" ++ elementType ++
              "', but got '" ++ showTypeJS bad ++ "'.")
          | none => .ok (some ctype, s)
      else if ctype = "string" then
        if types.length ≠ 1 then
          .error ("String constructor expects one argument, but got " ++
            Nat.repr types.length ++ ".")
        else if types.headD none ≠ some "number" ∧ types.headD none ≠ some "string" then
          .error ("String constructor expects a number or string argument, but got " ++
            showTypeJS (types.headD none) ++ ".")
        else .ok (some "string", s)
      else .error ("Unsupported type construction: " ++ ctype)
    | .identifier name =>
      match lookupVariable s.scopes name with
      | none => .error ("Undeclared variable '" ++ name ++ "'.")
      | some t => .ok (some t, s)
    | .output v => do
      let (_, s) ← analyzeNodeGo n v s
      .ok (none, s)
    | .returnNode rv => do
      let (returnType, s) ← analyzeNodeGo n rv s
      if returnType ≠ s.currentFunctionReturnType then
        .error ("Return type mismatch: expected '" ++
          showRetJS s.currentFunctionReturnType ++ "', got '" ++
          showTypeJS returnType ++ "'.")
      else .ok (none, s)
    | .objectLiteral props =>
      match objectLiteralGetType props s.structTypes with
      | none => .error "Object literal does not match any declared struct type."
      | some objType =>
        match mapGet s.structTypes (jsSliceToLast objType 7) with
        | none => .error "Object literal does not match any declared struct type."
        | some structFields => do
          let s ← analyzeObjProps n props structFields s
          .ok (some objType, s)
    | .branching cond tb fb => do
      let (conditionType, s) ← analyzeNodeGo n cond s
      if conditionType ≠ some "bool" then
        .error ("Condition in branching must be of type 'bool', but got '" ++
          showTypeJS conditionType ++ "'.")
      else do
        let s := enterScope s
        let s ← analyzeStmts n tb s
        let s ← exitScope s
        if fb.length > 0 then do
          let s := enterScope s
          let s ← analyzeStmts n fb s
          let s ← exitScope s
          .ok (none, s)
        else .ok (none, s)
    | .loop cond body => do
      let (conditionType, s) ← analyzeNodeGo n cond s
      if conditionType ≠ some "bool" then
        .error ("Condition in loop must be of type 'bool', but got '" ++
          showTypeJS conditionType ++ "'.")
      else do
        let s := enterScope s
        let s ← analyzeStmts n body s
        let s ← exitScope s
        .ok (none, s)
    | .unaryExpression op operand => do
      let (operandType, s) ← analyzeNodeGo n operand s
      if op = "-" ∧ operandType = some "number" then .ok (some "number", s)
      else if op = "!" ∧ operandType = some "bool" then .ok (some "bool", s)
      else
        .error ("Unsupported unary operator '" ++ op ++ "' for type '" ++
          showTypeJS operandType ++ "'.")
    | .indexAccess obj idx => do
      let (objectType, s) ← analyzeNodeGo n obj s
      let (indexType, s) ← analyzeNodeGo n idx s
      match objectType with
      | none => .error "TypeError: Cannot read properties of undefined (reading 'startsWith')"
      | some ot =>
        if ot = "string" then
          if indexType ≠ some "number" then
            .error ("Index for string must be of type 'number', but got '" ++
              showTypeJS indexType ++ "'.")
          else .ok (none, s)
        else if strStartsWith ot "array<" then
          if indexType ≠ some "number" then
            .error ("Index for array must be of type 'number', but got '" ++
              showTypeJS indexType ++ "'.")
          else .ok (none, s)
        else .error ("Unsupported index access on type '" ++ ot ++ "'.")
    | .indexAssignment obj idx value => do
      let (objectType, s) ← analyzeNodeGo n obj s
      let (indexType, s) ← analyzeNodeGo n idx s
      let (valueType, s) ← analyzeNodeGo n value s
      match objectType with
      | none => .error "TypeError: Cannot read properties of undefined (reading 'startsWith')"
      | some ot =>
        if ot = "string" then
          if indexType ≠ some "number" then
            .error ("Index for string must be of type 'number', but got '" ++
              showTypeJS indexType ++ "'.")
          else if valueType ≠ some "string" then
            .error ("Value for string assignment must be a string type, but got '" ++
              showTypeJS valueType ++ "'.")
          else
            match value with
            | .literal (.str lit) =>
              if lit.length ≠ 1 then
                .error ("Value for string assignment must be a single character, but got '" ++
                  lit ++ "'.")
              else .ok (none, s)
            | _ => .ok (none, s)
        else if strStartsWith ot "array<" then
          if indexType ≠ some "number" then
            .error ("Index for array must be of type 'number', but got '" ++
              showTypeJS indexType ++ "'.")
          else .ok (none, s)
        else .error ("Unsupported index assignment on type '" ++ ot ++ "'.")
    | .structType name fields =>
      if mapHas s.structTypes name then
        .error ("Struct type '" ++ name ++ "' is already declared.")
      else .ok (none, { s with structTypes := mapSet s.structTypes name fields })
    | .propertyAccess obj prop isA => do
      let (objectType, s) ← analyzeNodeGo n obj s
      match objectType with
      | none => .error "TypeError: Cannot read properties of undefined (reading 'startsWith')"
      | some ot =>
        if ot = "string" ∧ prop = "length" then
          if isA then .error "Cannot assign to read-only property 'length' of type 'string'."
          else .ok (some "number", s)
        else if strStartsWith ot "array<" ∧ prop = "length" then
          if isA then .error "Cannot assign to read-only property 'length' of type 'array'."
          else .ok (some "number", s)
        else if strStartsWith ot "object<" then
          let structTypeName := jsSliceToLast ot 7
          match mapGet s.structTypes structTypeName with
          | none => .error ("Struct type '" ++ structTypeName ++ "' is not declared.")
          | some structT =>
            match mapGet structT prop with
            | some propertyType =>
              if propertyType = "" then
                .error ("Property '" ++ prop ++ "' does not exist on type '" ++ ot ++ "'.")
              else .ok (some propertyType, s)
            | none =>
              .error ("Property '" ++ prop ++ "' does not exist on type '" ++ ot ++ "'.")
        else
          match obj with
          | .propertyAccess o2 p2 a2 => analyzeNodeGo n (.propertyAccess o2 p2 a2) s
          | _ => .error ("Unsupported property access on type '" ++ ot ++ "'.")

/-- Sequential analysis of a statement list (program, body, branch arm). -/
def analyzeStmts : Nat → List ASTNode → AState → Except String AState
  | 0, _, _ => .error "out of fuel"
  | _ + 1, [], s => .ok s
  | n + 1, stmt :: rest, s => do
    let (_, s) ← analyzeNodeGo n stmt s
    analyzeStmts n rest s

/-- The `values.map(value => value.accept(this))` of
visitTypeConstructionNode: the types of the constructor arguments. -/
def analyzeTypes : Nat → List ASTNode → AState → Except String (List (Option String) × AState)
  | 0, _, _ => .error "out of fuel"
  | _ + 1, [], s => .ok ([], s)
  | n + 1, v :: vs, s => do
    let (t, s) ← analyzeNodeGo n v s
    let (ts, s) ← analyzeTypes n vs s
    .ok (t :: ts, s)

/-- visitObjectLiteralNode's field loop: each field value's type must equal
the declared type in the matched struct's field map. -/
def analyzeObjProps : Nat → List (String × ASTNode) → List (String × String) → AState →
    Except String AState
  | 0, _, _, _ => .error "out of fuel"
  | _ + 1, [], _, s => .ok s
  | n + 1, (key, valueNode) :: rest, structFields, s => do
    let (valueType, s) ← analyzeNodeGo n valueNode s
    if mapGet structFields key ≠ valueType then
      .error ("Type mismatch for property '" ++ key ++ "': expected '" ++
        showTypeJS (mapGet structFields key) ++ "', got '" ++ showTypeJS valueType ++ "'.")
    else analyzeObjProps n rest structFields s

/-- visitFunctionCallNode's argument loop: each argument's type must equal
the corresponding parameter's declared type. -/
def analyzeCallArgs : Nat → String → List (String × String) → List ASTNode → AState →
    Except String AState
  | 0, _, _, _, _ => .error "out of fuel"
  | _ + 1, _, _, [], s => .ok s
  | n + 1, fname, params, arg :: restArgs, s => do
    let (argType, s) ← analyzeNodeGo n arg s
    let paramType := (params.headD ("", "")).2
    if argType ≠ some paramType then
      .error ("Type mismatch in function call to '" ++ fname ++ "': expected '" ++
        paramType ++ "', got '" ++ showTypeJS argType ++ "'.")
    else analyzeCallArgs n fname params.tail restArgs s

end

/-- One `ast.accept(semanticAnalyzer)` walk on an explicitly given analyzer
state; `.ok` carries the analyzer's state after the successful walk. -/
def analyzeWith (fuel : Nat) (ast : ASTNode) (s : AState) : Except String AState := do
  let (_, s) ← analyzeNodeGo fuel ast s
  .ok s

/-- `analyze`: run the Semantic Analyzer on a program with a freshly
constructed `SemanticAnalyzer` (as the pipeline in `index.ts` does). -/
def analyze (fuel : Nat) (ast : ASTNode) : Except String AState :=
  analyzeWith fuel ast freshAnalyzer

/-- A runtime value of the interpreter.  Struct instances are JavaScript
objects: a value holds only a reference (`objRef`) into the heap, so
copying the value shares the record.  `errObj` is a thrown-and-caught
`Error` object circulating as a value. -/
inductive Value where
  | num (value : JSNum)
  | str (value : String)
  | bool (value : Bool)
  | objRef (addr : Nat)
  | errObj (message : String)
  | null
  | undef
deriving DecidableEq

/-- The single JavaScript exception channel: the interpreter throws plain
values for `return` and `Error` objects for faults; `timeout` is the
modelling artefact for exhausted fuel (never a program behaviour). -/
inductive EResult where
  | ok (value : Value)
  | thrown (value : Value)
  | timeout

/-- The mutable state of one `OMLInterpreter` instance: the flat variable
binding table, the function table, the append-only output array, the
struct-type registry, and the heap of JavaScript object records that
`objRef` values point into. -/
structure EvalState where
  vars : List (String × Value)
  functions : List (String × FuncSig)
  output : List Value
  structTypes : List (String × List (String × String))
  heap : List (List (String × Value))

def jsTypeof : Value → String
  | .num _ => "number"
  | .str _ => "string"
  | .bool _ => "boolean"
  | .objRef _ => "object"
  | .errObj _ => "object"
  | .null => "object"
  | .undef => "undefined"

/-- JavaScript truthiness of the modelled values. -/
def truthy : Value → Bool
  | .num q => !jsNumEq q ⟨0, 1⟩
  | .str s => decide (s ≠ "")
  | .bool b => b
  | .objRef _ => true
  | .errObj _ => true
  | .null => false
  | .undef => false

/-- JavaScript string conversion (template literals, `Array.join`). -/
def jsToString : Value → String
  | .num q => jsNumToString q
  | .str s => s
  | .bool b => if b then "true" else "false"
  | .objRef _ => "[object Object]"
  | .errObj m => "Error: " ++ m
  | .null => "null"
  | .undef => "undefined"

/-- JavaScript `ToNumber` on the kinds arithmetic meets here (`undefined`
gives `NaN` and numeric strings parse, but analyzer-checked programs apply
arithmetic to numbers only, so neither is modelled). -/
def toNumberJS : Value → Option JSNum
  | .num q => some q
  | .bool b => some ⟨if b then 1 else 0, 1⟩
  | .null => some ⟨0, 1⟩
  | _ => none

/-- The JavaScript `+`: numeric addition when both operands coerce to
numbers, otherwise string concatenation. -/
def jsAdd (l r : Value) : Value :=
  match toNumberJS l, toNumberJS r with
  | some a, some b => .num (jsNumAdd a b)
  | _, _ => .str (jsToString l ++ jsToString r)

/-- Numeric `-`, `*`, `/`.  Operands that do not coerce to numbers would
give `NaN`, which is unrepresentable here and unreachable for
analyzer-checked operands; `⟨0, 1⟩` stands in for that dead branch. -/
def jsArith (f : JSNum → JSNum → JSNum) (l r : Value) : Value :=
  match toNumberJS l, toNumberJS r with
  | some a, some b => .num (f a b)
  | _, _ => .num ⟨0, 1⟩

def charListLt : List Char → List Char → Bool
  | [], [] => false
  | [], _ :: _ => true
  | _ :: _, [] => false
  | c :: cs, d :: ds => if c = d then charListLt cs ds else decide (c < d)

/-- JavaScript `==` on the operand kinds analyzer-checked programs compare
(both sides of one static type); the cross-kind coercion ladder beyond
booleans and `null`/`undefined` is not exercised by such programs. -/
def jsLooseEq (l r : Value) : Bool :=
  match l, r with
  | .num a, .num b => jsNumEq a b
  | .str a, .str b => a == b
  | .bool a, .bool b => a == b
  | .objRef a, .objRef b => a == b
  | .null, .null => true
  | .undef, .undef => true
  | .null, .undef => true
  | .undef, .null => true
  | .num a, .bool b => jsNumEq a ⟨if b then 1 else 0, 1⟩
  | .bool b, .num a => jsNumEq ⟨if b then 1 else 0, 1⟩ a
  | _, _ => false

/-- JavaScript `<` (numbers numerically, strings lexicographically). -/
def jsLt (l r : Value) : Bool :=
  match l, r with
  | .num a, .num b => jsNumLt a b
  | .str a, .str b => charListLt a.data b.data
  | _, _ =>
    match toNumberJS l, toNumberJS r with
    | some a, some b => jsNumLt a b
    | _, _ => false

/-- JavaScript `<=`. -/
def jsLe (l r : Value) : Bool :=
  match l, r with
  | .num a, .num b => jsNumLe a b
  | .str a, .str b => charListLt a.data b.data || a == b
  | _, _ =>
    match toNumberJS l, toNumberJS r with
    | some a, some b => jsNumLe a b
    | _, _ => false

/-- The operator switch of OMLInterpreter.visitBinaryExpressionNode, after
both operands have been evaluated; the `.` case is the template-literal
concatenation short-circuit above the switch, and the default case throws. -/
def applyBinaryOp (op : String) (l r : Value) : EResult :=
  if op = "." then .ok (.str (jsToString l ++ jsToString r))
  else if op = "+" then .ok (jsAdd l r)
  else if op = "-" then .ok (jsArith jsNumSub l r)
  else if op = "*" then .ok (jsArith jsNumMul l r)
  else if op = "/" then .ok (jsArith jsNumDiv l r)
  else if op = "&&" then .ok (if truthy l then r else l)
  else if op = "||" then .ok (if truthy l then l else r)
  else if op = "==" then .ok (.bool (jsLooseEq l r))
  else if op = "!=" then .ok (.bool (!jsLooseEq l r))
  else if op = ">" then .ok (.bool (jsLt r l))
  else if op = "<" then .ok (.bool (jsLt l r))
  else if op = ">=" then .ok (.bool (jsLe r l))
  else if op = "<=" then .ok (.bool (jsLe l r))
  else .thrown (.errObj ("Unsupported operator " ++ op))

/-- The integer a JavaScript number denotes when it is integral (used for
string index positions; a fractional index reads as an absent property). -/
def jsNumAsInt (q : JSNum) : Option Int :=
  if q.den = 0 then none
  else if q.num % (q.den : Int) = 0 then some (q.num / (q.den : Int)) else none

def listSetAt {α : Type} : List α → Nat → α → List α
  | [], _, _ => []
  | _ :: xs, 0, v => v :: xs
  | x :: xs, n + 1, v => x :: listSetAt xs n v

/-- The message of the TypeError a JavaScript engine raises when `.accept`
is read off `undefined`. -/
def jsUndefinedAcceptTypeError : String :=
  "TypeError: Cannot read properties of undefined (reading 'accept')"

def litToValue : LitValue → Value
  | .num q => .num q
  | .str s => .str s
  | .bool b => .bool b

mutual

/-- OMLInterpreter's `visit…` dispatch (`visitors.ts`, the interpreter with
struct support): one case per AST node class, threading the interpreter's
mutable state and the single throw channel.

Two deliberate transcription notes:
* visitReturnNode throws the computed value itself, and
  visitFunctionCallNode's `try`/`catch` binds whatever payload was thrown
  (a returned value or an `Error`) as the call's result.
* visitTypeConstructionNode reads `node.value`, but `TypeConstructionNode`
  (`ast.ts`) declares its constructor arguments under `values`; the read
  yields `undefined` and the immediate `.accept` call raises a TypeError
  before any of the string-construction logic can run. -/
def evalNode : Nat → ASTNode → EvalState → EvalState × EResult
  | 0, _, s => (s, .timeout)
  | n + 1, node, s =>
    match node with
    | .program stmts => execStmts n stmts s
    | .variableDeclaration name _ value =>
      match value with
      | some v =>
        match evalNode n v s with
        | (s, .ok val) => ({ s with vars := mapSet s.vars name val }, .ok .undef)
        | other => other
      | none => ({ s with vars := mapSet s.vars name .null }, .ok .undef)
    | .assignment target value =>
      match evalNode n value s with
      | (s, .ok val) =>
        match target with
        | .propertyAccess obj prop _ =>
          match evalNode n obj s with
          | (s, .ok ov) =>
            match ov with
            | .objRef addr =>
              let fields := (s.heap.get? addr).getD []
              ({ s with heap := listSetAt s.heap addr (mapSet fields prop val) }, .ok .undef)
            | _ =>
              (s, .thrown (.errObj ("Cannot assign property '" ++ prop ++ "' on non-object type.")))
          | other => other
        | .identifier nm => ({ s with vars := mapSet s.vars nm val }, .ok .undef)
        | _ => ({ s with vars := mapSet s.vars "undefined" val }, .ok .undef)
      | other => other
    | .binaryExpression l op r =>
      match evalNode n l s with
      | (s, .ok lv) =>
        match evalNode n r s with
        | (s, .ok rv) => (s, applyBinaryOp op lv rv)
        | other => other
      | other => other
    | .unaryExpression op operand =>
      match evalNode n operand s with
      | (s, .ok v) =>
        if op = "-" then
          (s, .ok (match toNumberJS v with
                   | some q => .num (jsNumNeg q)
                   | none => .num ⟨0, 1⟩))
        else if op = "!" then (s, .ok (.bool (!truthy v)))
        else (s, .thrown (.errObj ("Unsupported unary operator " ++ op)))
      | other => other
    | .functionDeclaration name params rt body =>
      ({ s with functions := mapSet s.functions name ⟨params, rt, body⟩ }, .ok .undef)
    | .functionCall name args =>
      match mapGet s.functions name with
      | none => (s, .thrown (.errObj ("Function " ++ name ++ " is not defined")))
      | some func =>
        let saved := s.vars
        match evalBindArgs n func.parameters args s with
        | (s, .ok _) =>
          match execStmts n func.body s with
          | (s, .ok _) => ({ s with vars := saved }, .ok .null)
          | (s, .thrown t) => ({ s with vars := saved }, .ok t)
          | (s, .timeout) => (s, .timeout)
        | other => other
    | .branching cond tb fb =>
      match evalNode n cond s with
      | (s, .ok c) => if truthy c then execStmts n tb s else execStmts n fb s
      | other => other
    | .loop cond body =>
      match evalNode n cond s with
      | (s, .ok c) =>
        if truthy c then
          match execStmts n body s with
          | (s, .ok _) => evalNode n (.loop cond body) s
          | other => other
        else (s, .ok .undef)
      | other => other
    | .literal v => (s, .ok (litToValue v))
    | .identifier name => (s, .ok ((mapGet s.vars name).getD .undef))
    | .objectLiteral props => evalObjProps n props [] s
    | .output v =>
      match evalNode n v s with
      | (s, .ok val) => ({ s with output := s.output ++ [val] }, .ok .undef)
      | other => other
    | .returnNode rv =>
      match evalNode n rv s with
      | (s, .ok val) => (s, .thrown val)
      | other => other
    | .indexAccess obj idx =>
      match evalNode n obj s with
      | (s, .ok ov) =>
        match evalNode n idx s with
        | (s, .ok iv) =>
          match ov with
          | .str str =>
            match iv with
            | .num q =>
              if jsNumLt q ⟨0, 1⟩ || jsNumLe ⟨str.length, 1⟩ q then
                (s, .thrown (.errObj "Index out of bounds"))
              else
                (s, .ok (match jsNumAsInt q with
                         | some i =>
                           match str.data.get? i.toNat with
                           | some c => .str (String.mk [c])
                           | none => .undef
                         | none => .undef))
            | _ => (s, .thrown (.errObj "Index out of bounds"))
          | _ =>
            (s, .thrown (.errObj ("Unsupported index access on type '" ++ jsTypeof ov ++ "'")))
        | other => other
      | other => other
    | .indexAssignment obj idx value =>
      match evalNode n obj s with
      | (s, .ok ov) =>
        match evalNode n idx s with
        | (s, .ok iv) =>
          match evalNode n value s with
          | (s, .ok vv) =>
            match ov with
            | .str str =>
              match iv with
              | .num q =>
                if jsNumLt q ⟨0, 1⟩ || jsNumLe ⟨str.length, 1⟩ q then
                  (s, .thrown (.errObj "Index out of bounds"))
                else
                  match vv with
                  | .str c =>
                    if c.length ≠ 1 then
                      (s, .thrown (.errObj "Value for string assignment must be a single character"))
                    else
                      let newStr :=
                        match jsNumAsInt q with
                        | some i => String.mk (listSetAt str.data i.toNat (c.data.headD ' '))
                        | none => str
                      let varName := match obj with
                        | .identifier nm => nm
                        | _ => "undefined"
                      ({ s with vars := mapSet s.vars varName (.str newStr) }, .ok .undef)
                  | _ =>
                    (s, .thrown (.errObj "Value for string assignment must be a single character"))
              | _ => (s, .thrown (.errObj "Index out of bounds"))
            | _ =>
              (s, .thrown (.errObj ("Unsupported index assignment on type '" ++ jsTypeof ov ++ "'")))
          | other => other
        | other => other
      | other => other
    | .typeConstruction _ _ => (s, .thrown (.errObj jsUndefinedAcceptTypeError))
    | .structType name fields =>
      if mapHas s.structTypes name then
        (s, .thrown (.errObj ("Struct type '" ++ name ++ "' is already declared.")))
      else ({ s with structTypes := mapSet s.structTypes name fields }, .ok .undef)
    | .propertyAccess obj prop isA =>
      match evalNode n obj s with
      | (s, .ok ov) =>
        match ov with
        | .str str =>
          if prop = "length" then
            if isA then
              (s, .thrown (.errObj "Cannot assign to read-only property 'length' of type 'string'."))
            else (s, .ok (.num ⟨str.length, 1⟩))
          else (s, .thrown (.errObj "Unsupported property access on type 'string'."))
        | .objRef addr =>
          let fields := (s.heap.get? addr).getD []
          match mapGet fields prop with
          | some v => (s, .ok v)
          | none => (s, .thrown (.errObj ("Property '" ++ prop ++ "' does not exist on object.")))
        | .errObj m =>
          if prop = "message" then (s, .ok (.str m))
          else (s, .thrown (.errObj ("Property '" ++ prop ++ "' does not exist on object.")))
        | _ => (s, .thrown (.errObj ("Unsupported property access on type '" ++ jsTypeof ov ++ "'.")))
      | other => other

/-- Sequential statement execution: the first thrown payload aborts the
rest of the list (JavaScript exception propagation out of the `for` loop). -/
def execStmts : Nat → List ASTNode → EvalState → EvalState × EResult
  | 0, _, s => (s, .timeout)
  | _ + 1, [], s => (s, .ok .undef)
  | n + 1, stmt :: rest, s =>
    match evalNode n stmt s with
    | (s, .ok _) => execStmts n rest s
    | other => other

/-- visitObjectLiteralNode's field loop: evaluate each property value in
insertion order, then place the finished record on the heap.  (The source
allocates the empty object first and fills it; nothing can observe the
record before the literal finishes, so allocating on completion is
observationally the same.) -/
def evalObjProps : Nat → List (String × ASTNode) → List (String × Value) → EvalState →
    EvalState × EResult
  | 0, _, _, s => (s, .timeout)
  | _ + 1, [], acc, s =>
    let addr := s.heap.length
    ({ s with heap := s.heap ++ [acc] }, .ok (.objRef addr))
  | n + 1, (key, vnode) :: rest, acc, s =>
    match evalNode n vnode s with
    | (s, .ok v) => evalObjProps n rest (mapSet acc key v) s
    | other => other

/-- visitFunctionCallNode's parameter loop: for each parameter (in order)
evaluate the matching argument into the *current* table and bind it.  A
missing argument would be `node.args[i] === undefined`, whose `.accept`
read raises a TypeError (unreachable for analyzer-checked calls). -/
def evalBindArgs : Nat → List (String × String) → List ASTNode → EvalState →
    EvalState × EResult
  | 0, _, _, s => (s, .timeout)
  | _ + 1, [], _, s => (s, .ok .undef)
  | n + 1, (pname, _) :: ps, args, s =>
    match args with
    | [] => (s, .thrown (.errObj jsUndefinedAcceptTypeError))
    | arg :: rest =>
      match evalNode n arg s with
      | (s, .ok v) =>
        evalBindArgs n ps rest { s with vars := mapSet s.vars pname v }
      | other => other

end

/-- A newly constructed `OMLInterpreter`. -/
def freshInterpreter : EvalState := ⟨[], [], [], [], []⟩

/-- `ast.accept(interpreter)` on a fresh interpreter, as the pipeline in
`index.ts` runs it after a successful analysis. -/
def runProgram (fuel : Nat) (ast : ASTNode) : EvalState × EResult :=
  evalNode fuel ast freshInterpreter

/-- The display forms of the values the output statements pushed (what
`getOutput()` joins with newlines). -/
def displayedOutput (s : EvalState) : List String := s.output.map jsToString

/-- OMLInterpreter.getOutput. -/
def getOutput (s : EvalState) : String := String.intercalate "\n" (displayedOutput s)

/-- The token kinds of `tokenizer.ts` (the `Return` kind is declared there
but matched by no pattern and is omitted). -/
inductive TokenType where
  | singleLineComment
  | multiLineComment
  | whitespace
  | accessOperator
  | assignment
  | addition
  | functionDeclaration
  | identifier
  | number
  | string
  | operator
  | punctuation
  | equals
  | branching
  | loop
  | output
  | colon
  | type
  | logicOperator
  | atSymbol
  | noneKw
  | bool
  | dot
  | structType
deriving DecidableEq

structure Token where
  type : TokenType
  value : String
  line : Nat
  column : Nat
  position : Nat
deriving DecidableEq

/-- A token-kind pattern applied at the current position: the matched
characters and the remaining input, or no match. -/
def TokenMatcher : Type := List Char → Option (List Char × List Char)

/-- Anchored literal match: the remaining input after the literal. -/
def litMatch : List Char → List Char → Option (List Char)
  | [], rest => some rest
  | _ :: _, [] => none
  | l :: ls, c :: cs => if c = l then litMatch ls cs else none

def litMatcher (lit : List Char) : TokenMatcher := fun input =>
  match litMatch lit input with
  | some rest => some (lit, rest)
  | none => none

/-- Ordered regex alternation of literals: the first alternative that
matches at the current position wins. -/
def altMatcher : List (List Char) → TokenMatcher
  | [] => fun _ => none
  | l :: ls => fun input =>
    match litMatch l input with
    | some rest => some (l, rest)
    | none => altMatcher ls input

/-- The ASCII members of the regex class `\s` (the class also admits
Unicode spaces, which no analysed source text contains). -/
def isJsWhitespace (c : Char) : Bool :=
  c = ' ' || c = '\t' || c = '\n' || c = '\r' || c = Char.ofNat 11 || c = Char.ofNat 12

def isAsciiLetter (c : Char) : Bool :=
  (decide ('a' ≤ c) && decide (c ≤ 'z')) || (decide ('A' ≤ c) && decide (c ≤ 'Z'))

def isIdentStart (c : Char) : Bool := isAsciiLetter c || c = '_'

def isDigitChar (c : Char) : Bool := decide ('0' ≤ c) && decide (c ≤ '9')

def isIdentChar (c : Char) : Bool := isIdentStart c || isDigitChar c

/-- The `//…` pattern: up to (excluding) the next newline. -/
def singleLineCommentMatcher : TokenMatcher := fun input =>
  match litMatch ['/', '/'] input with
  | some rest =>
    let body := rest.takeWhile (fun c => decide (c ≠ '\n'))
    some ('/' :: '/' :: body, rest.drop body.length)
  | none => none

/-- Scan for the closing delimiter of a block comment (lazy `[\s\S]*?\*\/`);
no closing delimiter means no match at all. -/
def blockCommentScan : Nat → List Char → Option (List Char × List Char)
  | 0, _ => none
  | _ + 1, [] => none
  | _ + 1, '*' :: '/' :: rest => some (['*', '/'], rest)
  | n + 1, c :: rest =>
    match blockCommentScan n rest with
    | some (m, r) => some (c :: m, r)
    | none => none

def multiLineCommentMatcher : TokenMatcher := fun input =>
  match litMatch ['/', '*'] input with
  | some rest =>
    match blockCommentScan rest.length rest with
    | some (m, r) => some ('/' :: '*' :: m, r)
    | none => none
  | none => none

def whitespaceMatcher : TokenMatcher := fun input =>
  match input.takeWhile isJsWhitespace with
  | [] => none
  | ws => some (ws, input.drop ws.length)

def identifierMatcher : TokenMatcher := fun input =>
  match input with
  | c :: rest =>
    if isIdentStart c then
      let tail := rest.takeWhile isIdentChar
      some (c :: tail, rest.drop tail.length)
    else none
  | [] => none

def structTypeMatcher : TokenMatcher := fun input =>
  match input with
  | '$' :: rest =>
    match identifierMatcher rest with
    | some (m, r) => some ('$' :: m, r)
    | none => none
  | _ => none

/-- `[0-9]+(\.[0-9]+)?`: the decimal part is taken only when the dot is
followed by at least one digit. -/
def numberMatcher : TokenMatcher := fun input =>
  match input.takeWhile isDigitChar with
  | [] => none
  | ds =>
    let rest := input.drop ds.length
    match rest with
    | '.' :: r2 =>
      match r2.takeWhile isDigitChar with
      | [] => some (ds, rest)
      | fs => some (ds ++ '.' :: fs, r2.drop fs.length)
    | _ => some (ds, rest)

/-- Scan for the closing quote of `"[^"]*"`; an unterminated literal means
no match. -/
def stringLitScan : Nat → List Char → Option (List Char × List Char)
  | 0, _ => none
  | _ + 1, [] => none
  | _ + 1, '"' :: rest => some (['"'], rest)
  | n + 1, c :: rest =>
    match stringLitScan n rest with
    | some (m, r) => some (c :: m, r)
    | none => none

def stringMatcher : TokenMatcher := fun input =>
  match input with
  | '"' :: rest =>
    match stringLitScan rest.length rest with
    | some (m, r) => some ('"' :: m, r)
    | none => none
  | _ => none

/-- Tokenizer.tokenPatterns in their fixed priority order. -/
def tokenPatterns : List (TokenType × TokenMatcher) := [
  (.singleLineComment, singleLineCommentMatcher),
  (.multiLineComment, multiLineCommentMatcher),
  (.whitespace, whitespaceMatcher),
  (.atSymbol, litMatcher ['@']),
  (.accessOperator, litMatcher ['-', '>']),
  (.assignment, litMatcher ['<', '-']),
  (.addition, litMatcher ['<', '>']),
  (.functionDeclaration, litMatcher [':', ':']),
  (.logicOperator, altMatcher [['=', '='], ['!', '='], ['&', '&'], ['|', '|'],
    ['<', '='], ['>', '='], ['<'], ['>']]),
  (.operator, altMatcher [['+'], ['-'], ['*'], ['/']]),
  (.output, litMatcher ['^', '^']),
  (.branching, litMatcher ['?']),
  (.equals, litMatcher ['=']),
  (.loop, litMatcher ['%']),
  (.type, altMatcher ["array".data, "void".data, "number".data, "bool".data,
    "string".data, "object".data]),
  (.noneKw, litMatcher "none".data),
  (.bool, altMatcher ["yes".data, "no".data]),
  (.structType, structTypeMatcher),
  (.identifier, identifierMatcher),
  (.number, numberMatcher),
  (.string, stringMatcher),
  (.punctuation, altMatcher [['('], [')'], ['{'], ['}'], ['['], [']'], [','],
    [';'], ['|'], ['~'], ['&']]),
  (.colon, litMatcher [':']),
  (.dot, litMatcher ['.'])]

def firstTokenMatch : List (TokenType × TokenMatcher) → List Char →
    Option (TokenType × List Char × List Char)
  | [], _ => none
  | (tt, m) :: rest, input =>
    match m input with
    | some (mt, r) => some (tt, mt, r)
    | none => firstTokenMatch rest input

/-- Tokenizer.getNextToken: the first pattern in priority order that
matches at the current position. -/
def getNextToken (rem : List Char) : Option (TokenType × List Char × List Char) :=
  firstTokenMatch tokenPatterns rem

structure TokPos where
  line : Nat
  column : Nat
  position : Nat
deriving DecidableEq

/-- Tokenizer.updatePosition: newline resets the column to 1 and bumps the
line. -/
def updatePosition : List Char → TokPos → TokPos
  | [], p => p
  | c :: cs, p =>
    updatePosition cs
      (if c = '\n' then ⟨p.line + 1, 1, p.position + 1⟩
       else ⟨p.line, p.column + 1, p.position + 1⟩)

/-- Tokenizer.tokenize: repeatedly take the first matching pattern,
discarding whitespace and both comment forms; a position matching no
pattern raises a TokenizationError (whose bracketed source snippet is
presentation and is not modelled beyond the message). -/
def tokenizeGo : Nat → List Char → TokPos → List Token → Except String (List Token)
  | 0, _, _, _ => .error "out of fuel"
  | _ + 1, [], _, acc => .ok acc.reverse
  | n + 1, rem, pos, acc =>
    match getNextToken rem with
    | none =>
      .error ("Unexpected token at line " ++ Nat.repr pos.line ++ ", column " ++
        Nat.repr pos.column)
    | some (tt, matched, rest) =>
      let tok : Token := ⟨tt, String.mk matched, pos.line, pos.column, pos.position⟩
      let pos := updatePosition matched pos
      if tt = .singleLineComment ∨ tt = .multiLineComment ∨ tt = .whitespace then
        tokenizeGo n rest pos acc
      else tokenizeGo n rest pos (tok :: acc)

def tokenize (code : String) : Except String (List Token) :=
  tokenizeGo (code.length + 1) code.data ⟨1, 1, 0⟩ []

/-- The parser's cursor state: the token array, the `current` index, and
the context stack used by return-statement validation.  (The `code` field
of the source parser feeds only the SyntaxError source snippet, which is
presentational; errors are modelled by their message.) -/
structure PState where
  tokens : List Token
  current : Nat
  contextStack : List String

def pIsAtEnd (p : PState) : Bool := decide (p.current ≥ p.tokens.length)

/-- Parser.check. -/
def pCheck (p : PState) (tt : TokenType) : Bool :=
  match p.tokens.get? p.current with
  | some t => decide (t.type = tt)
  | none => false

/-- The `this.peek().value === v` tests that follow a successful check. -/
def pPeekValueIs (p : PState) (v : String) : Bool :=
  match p.tokens.get? p.current with
  | some t => decide (t.value = v)
  | none => false

/-- Parser.checkNext: a lookahead index past the end of the token array
dereferences `undefined` in the source and raises a TypeError. -/
def pCheckNext (p : PState) (tt : TokenType) (ahead : Nat) : Except String Bool :=
  if pIsAtEnd p then .ok false
  else
    match p.tokens.get? (p.current + ahead) with
    | some t => .ok (decide (t.type = tt))
    | none => .error "TypeError: Cannot read properties of undefined (reading 'type')"

/-- Parser.consume: take the expected token or raise a SyntaxError with
the given message. -/
def pConsume (p : PState) (tt : TokenType) (expected : Option String) (msg : String) :
    Except String (Token × PState) :=
  match p.tokens.get? p.current with
  | some t =>
    if t.type = tt ∧ (expected = none ∨ expected = some t.value) then
      .ok (t, { p with current := p.current + 1 })
    else .error msg
  | none => .error msg

/-- Parser.advance at a position where a token is known to exist (every
call site first checks the current token's kind). -/
def pAdvanceTok (p : PState) : Except String (Token × PState) :=
  match p.tokens.get? p.current with
  | some t => .ok (t, { p with current := p.current + 1 })
  | none => .error "TypeError: Cannot read properties of undefined (reading 'value')"

/-- Parser.getOperatorPrecedence: concatenation sits between the
relational and the additive operators. -/
def getOperatorPrecedence (op : String) : Nat :=
  if op = "||" then 1
  else if op = "&&" then 2
  else if op = "==" ∨ op = "!=" then 3
  else if op = "<" ∨ op = ">" ∨ op = "<=" ∨ op = ">=" then 4
  else if op = "." then 5
  else if op = "+" ∨ op = "-" then 6
  else if op = "*" ∨ op = "/" then 7
  else 0

/-- The precedence of the token under the cursor (guarded by an
end-of-input check at the call site). -/
def peekPrecedence (p : PState) : Nat :=
  match p.tokens.get? p.current with
  | some t => getOperatorPrecedence t.value
  | none => 0

def digitsValGo (acc : Nat) : List Char → Nat
  | [] => acc
  | c :: cs => digitsValGo (acc * 10 + (c.toNat - '0'.toNat)) cs

/-- `parseFloat` on the shapes the Number token pattern produces
(`[0-9]+(\.[0-9]+)?`). -/
def parseFloatLit (s : String) : JSNum :=
  let ds := s.data.takeWhile isDigitChar
  let rest := s.data.drop ds.length
  match rest with
  | '.' :: r2 =>
    let fs := r2.takeWhile isDigitChar
    ⟨((digitsValGo 0 ds * pow10 fs.length + digitsValGo 0 fs : Nat) : Int), pow10 fs.length⟩
  | _ => ⟨((digitsValGo 0 ds : Nat) : Int), 1⟩

/-- `value.replace('$', '')` on a StructType token (a string `replace`
rewrites only the first occurrence). -/
def stripDollar (s : String) : String :=
  match s.data with
  | '$' :: rest => String.mk rest
  | _ => s

/-- Parser.parseIdentifier. -/
def parseIdentifier (p : PState) : Except String (ASTNode × PState) := do
  let (t, p) ← pConsume p .identifier none "Expect variable or object name"
  .ok (.identifier t.value, p)

mutual

/-- Parser.parseProgram's statement loop. -/
def parseProgramLoop : Nat → PState → List ASTNode → Except String (List ASTNode × PState)
  | 0, _, _ => .error "out of fuel"
  | n + 1, p, acc =>
    if pIsAtEnd p then .ok (acc.reverse, p)
    else do
      let (stmt, p) ← parseStatement n p
      parseProgramLoop n p (stmt :: acc)

/-- Parser.parseStatement: dispatch keyed on the leading token. -/
def parseStatement : Nat → PState → Except String (ASTNode × PState)
  | 0, _ => .error "out of fuel"
  | n + 1, p =>
    if pCheck p .structType then parseStructType n p
    else do
      let (st?, p) ← parseSemicolonStatement n p
      match st? with
      | some st => .ok (st, p)
      | none =>
        if pCheck p .atSymbol then parseFunctionDeclaration n p
        else if pCheck p .branching then parseBranching n p
        else if pCheck p .loop then parseLoop n p
        else if pCheck p .colon then parseExpression n p
        else .error "Unexpected statement"

/-- Parser.parseSemicolonStatement: the `;`-terminated statement forms, or
`null` when the leading token starts none of them. -/
def parseSemicolonStatement : Nat → PState → Except String (Option ASTNode × PState)
  | 0, _ => .error "out of fuel"
  | n + 1, p => do
    let (st?, p) ←
      if pCheck p .operator ∧ pPeekValueIs p "+" then do
        let (st, p) ← parseVariableDeclaration n p
        pure (some st, p)
      else if pCheck p .addition then do
        let (st, p) ← parseFunctionCall n p
        pure (some st, p)
      else if pCheck p .assignment then do
        let (st, p) ← parseAssignment n p
        pure (some st, p)
      else if pCheck p .identifier then do
        let b ← pCheckNext p .accessOperator 1
        if b then do
          let (st, p) ← parseIndexAssignment n p
          pure (some st, p)
        else pure (none, p)
      else if pCheck p .output then do
        let (st, p) ← parseOutput n p
        pure (some st, p)
      else if pCheck p .atSymbol then do
        let b1 ← pCheckNext p .identifier 1
        if b1 then do
          let b2 ← pCheckNext p .assignment 2
          if b2 then do
            let (st, p) ← parseReturnStatement n p
            pure (some st, p)
          else pure (none, p)
        else pure (none, p)
      else pure (none, p)
    match st? with
    | some st => do
      let (_, p) ← pConsume p .punctuation (some ";") "Expected ';' as end of the statement"
      .ok (some st, p)
    | none => .ok (none, p)

def parseBranching : Nat → PState → Except String (ASTNode × PState)
  | 0, _ => .error "out of fuel"
  | n + 1, p => do
    let (_, p) ← pConsume p .branching (some "?") "Expect '?' for branching statement"
    let (_, p) ← pConsume p .punctuation (some "[") "Expect '[' for condition start"
    let (cond, p) ← parseExpression n p
    let (_, p) ← pConsume p .punctuation (some "]") "Expect ']' for condition end"
    let (tb, p) ← parseBlock n p
    if pCheck p .colon then do
      let (_, p) ← pAdvanceTok p
      let (fb, p) ← parseBlock n p
      .ok (.branching cond tb fb, p)
    else .ok (.branching cond tb [], p)

def parseLoop : Nat → PState → Except String (ASTNode × PState)
  | 0, _ => .error "out of fuel"
  | n + 1, p => do
    let (_, p) ← pConsume p .loop (some "%") "Expect '%' for loop statement"
    let (_, p) ← pConsume p .punctuation (some "[") "Expect '[' for loop condition start"
    let (cond, p) ← parseExpression n p
    let (_, p) ← pConsume p .punctuation (some "]") "Expect ']' for loop condition end"
    let (body, p) ← parseBlock n p
    .ok (.loop cond body, p)

def parseVariableDeclaration : Nat → PState → Except String (ASTNode × PState)
  | 0, _ => .error "out of fuel"
  | n + 1, p => do
    let (_, p) ← pConsume p .operator (some "+") "Expect '+' for variable declaration"
    let (nameTok, p) ← pConsume p .identifier none "Expect variable name"
    let (_, p) ← pConsume p .punctuation (some "~") "Expect '~' before variable type declaration"
    let (type, p) ← parseType n p
    if pCheck p .equals then do
      let (_, p) ← pAdvanceTok p
      let (value, p) ← parseExpression n p
      .ok (.variableDeclaration nameTok.value type (some value), p)
    else .ok (.variableDeclaration nameTok.value type none, p)

/-- Parser.parseAssignment: the target is an identifier or a property
chain; a trailing property access is flagged as an assignment target. -/
def parseAssignment : Nat → PState → Except String (ASTNode × PState)
  | 0, _ => .error "out of fuel"
  | n + 1, p => do
    let (_, p) ← pConsume p .assignment none "Expect '<-' for assignment"
    let (idn, p) ← parseIdentifier p
    let (name, p) ← parsePropAccessLoop n idn p
    let (_, p) ← pConsume p .equals none "Expect '=' after variable name"
    let (value, p) ← parseExpression n p
    let name := match name with
      | .propertyAccess o pr _ => ASTNode.propertyAccess o pr true
      | other => other
    .ok (.assignment name value, p)

/-- The `while` of Parser.parseIdentifierOrPropertyAccess. -/
def parsePropAccessLoop : Nat → ASTNode → PState → Except String (ASTNode × PState)
  | 0, _, _ => .error "out of fuel"
  | n + 1, node, p =>
    if pCheck p .accessOperator then do
      let (_, p) ← pConsume p .accessOperator (some "->") "Expect '->' for property access"
      let (propTok, p) ← pConsume p .identifier none "Expect property name"
      parsePropAccessLoop n (.propertyAccess node propTok.value false) p
    else .ok (node, p)

def parseFunctionDeclaration : Nat → PState → Except String (ASTNode × PState)
  | 0, _ => .error "out of fuel"
  | n + 1, p => do
    let p := { p with contextStack := p.contextStack ++ ["function"] }
    let (_, p) ← pConsume p .atSymbol none "Expect '@' for function declaration"
    let (nameTok, p) ← pConsume p .identifier none "Expect function name"
    let (_, p) ← pConsume p .functionDeclaration (some "::") "Expect '::'"
    let (params, p) ← parseParameters n p
    let (_, p) ← pConsume p .accessOperator none "Expect '->' after parameters"
    let (rtTok, p) ← pConsume p .type none "Expect return type"
    let (body, p) ← parseBlock n p
    let p := { p with contextStack := p.contextStack.dropLast }
    .ok (.functionDeclaration nameTok.value params rtTok.value body, p)

def parseFunctionCall : Nat → PState → Except String (ASTNode × PState)
  | 0, _ => .error "out of fuel"
  | n + 1, p => do
    let (_, p) ← pConsume p .addition (some "<>") "Expect '<>' for function call"
    let (nameTok, p) ← pConsume p .identifier none "Expect function name after '<>'"
    let (_, p) ← pConsume p .functionDeclaration (some "::") "Expect '::' after function name"
    let (_, p) ← pConsume p .punctuation (some "(") "Expect '(' for function arguments"
    let (args, p) ← parseArguments n p
    let (_, p) ← pConsume p .punctuation (some ")") "Expect ')' after function arguments"
    .ok (.functionCall nameTok.value args, p)

def parseBlock : Nat → PState → Except String (List ASTNode × PState)
  | 0, _ => .error "out of fuel"
  | n + 1, p => do
    let (_, p) ← pConsume p .punctuation (some "|") "Expect '|' to start block"
    let (stmts, p) ← parseBlockLoop n p []
    let (_, p) ← pConsume p .punctuation (some "~") "Expect '~' to end block"
    .ok (stmts, p)

def parseBlockLoop : Nat → PState → List ASTNode → Except String (List ASTNode × PState)
  | 0, _, _ => .error "out of fuel"
  | n + 1, p, acc =>
    if pCheck p .punctuation = false ∧ pIsAtEnd p = false then do
      let (st, p) ← parseStatement n p
      parseBlockLoop n p (st :: acc)
    else .ok (acc.reverse, p)

def parseReturnStatement : Nat → PState → Except String (ASTNode × PState)
  | 0, _ => .error "out of fuel"
  | n + 1, p =>
    if p.contextStack.contains "function" = false then
      .error "'return' can only be used inside a function"
    else do
      let (_, p) ← pConsume p .atSymbol none "Expect '@' for return construction"
      let (_, p) ← pConsume p .identifier none "Expect a the fuction name for return construction"
      let (_, p) ← pConsume p .assignment (some "<-") "Expect '<-' for return assignment"
      let (rv, p) ← parseExpression n p
      .ok (.returnNode rv, p)

def parseParameters : Nat → PState → Except String (List (String × String) × PState)
  | 0, _ => .error "out of fuel"
  | n + 1, p =>
    if pCheck p .noneKw then do
      let (_, p) ← pConsume p .noneKw none "Expect 'none' in a case when function has no parameters"
      .ok ([], p)
    else do
      let (_, p) ← pConsume p .logicOperator (some "<") "Expect '<' to start parameter list"
      let (params, p) ← parseParamsLoop n p []
      let (_, p) ← pConsume p .logicOperator (some ">") "Expect '>' to end parameter list"
      .ok (params, p)

def parseParamsLoop : Nat → PState → List (String × String) →
    Except String (List (String × String) × PState)
  | 0, _, _ => .error "out of fuel"
  | n + 1, p, acc => do
    let (nameTok, p) ← pConsume p .identifier none "Expect parameter name"
    let (_, p) ← pConsume p .punctuation (some "~") "Expect '~' after parameter identifier"
    let (ptype, p) ← parseType n p
    let acc := acc ++ [(nameTok.value, ptype)]
    if pCheck p .punctuation ∧ pPeekValueIs p "&" then do
      let (_, p) ← pAdvanceTok p
      parseParamsLoop n p acc
    else .ok (acc, p)

def parseArguments : Nat → PState → Except String (List ASTNode × PState)
  | 0, _ => .error "out of fuel"
  | n + 1, p =>
    if pCheck p .punctuation then .ok ([], p)
    else parseArgsLoop n p []

def parseArgsLoop : Nat → PState → List ASTNode → Except String (List ASTNode × PState)
  | 0, _, _ => .error "out of fuel"
  | n + 1, p, acc => do
    let (arg, p) ← parseExpression n p
    let acc := acc ++ [arg]
    if pCheck p .punctuation ∧ pPeekValueIs p "," then do
      let (_, p) ← pAdvanceTok p
      parseArgsLoop n p acc
    else .ok (acc, p)

def parseExpression : Nat → PState → Except String (ASTNode × PState)
  | 0, _ => .error "out of fuel"
  | n + 1, p => do
    let (expr, p) ← parsePrimaryExpression n p
    if pCheck p .operator || pCheck p .logicOperator || pCheck p .dot then
      parseBinaryExpression n expr p
    else .ok (expr, p)

/-- The outer `while` of Parser.parseBinaryExpression: take an operator,
parse the right operand, fold in tighter-binding operators on the right,
left-associfold the rest. -/
def parseBinaryExpression : Nat → ASTNode → PState → Except String (ASTNode × PState)
  | 0, _, _ => .error "out of fuel"
  | n + 1, left, p =>
    if pCheck p .operator || pCheck p .logicOperator || pCheck p .dot then do
      let (opTok, p) ← pAdvanceTok p
      let precedence := getOperatorPrecedence opTok.value
      let (right, p) ← parsePrimaryExpression n p
      let (right, p) ← parseBinRight n precedence right p
      parseBinaryExpression n (.binaryExpression left opTok.value right) p
    else .ok (left, p)

/-- The inner `while` of Parser.parseBinaryExpression: while the next
operator binds tighter, extend the right operand. -/
def parseBinRight : Nat → Nat → ASTNode → PState → Except String (ASTNode × PState)
  | 0, _, _, _ => .error "out of fuel"
  | n + 1, precedence, right, p =>
    if pIsAtEnd p = false ∧ precedence < peekPrecedence p then do
      let (right, p) ← parseBinaryExpression n right p
      parseBinRight n precedence right p
    else .ok (right, p)

/-- Parser.parsePrimaryExpression.  (The source repeats the parenthesized
grouping branch twice; the second copy is unreachable and not transcribed.) -/
def parsePrimaryExpression : Nat → PState → Except String (ASTNode × PState)
  | 0, _ => .error "out of fuel"
  | n + 1, p =>
    if pCheck p .operator ∧ (pPeekValueIs p "-" ∨ pPeekValueIs p "!") then do
      let (opTok, p) ← pAdvanceTok p
      let (operand, p) ← parsePrimaryExpression n p
      match operand with
      | .literal v => .ok (.unaryExpression opTok.value (.literal v), p)
      | .identifier nm => .ok (.unaryExpression opTok.value (.identifier nm), p)
      | _ => .error "Unary operations are only supported for literals and variables"
    else if pCheck p .bool then do
      let (t, p) ← pAdvanceTok p
      .ok (.literal (.bool (decide (t.value = "yes"))), p)
    else if pCheck p .number then do
      let (t, p) ← pAdvanceTok p
      .ok (.literal (.num (parseFloatLit t.value)), p)
    else if pCheck p .string then do
      let (t, p) ← pAdvanceTok p
      .ok (.literal (.str (jsSliceToLast t.value 1)), p)
    else if pCheck p .type then parseTypeConstruction n p
    else if pCheck p .identifier then do
      let b1 ← pCheckNext p .accessOperator 1
      if b1 then do
        let b2 ← pCheckNext p .punctuation 2
        if b2 then parseIndexAccess n p
        else parsePrimaryIdentifier n p
      else parsePrimaryIdentifier n p
    else if pCheck p .punctuation ∧ pPeekValueIs p "(" then do
      let b1 ← pCheckNext p .identifier 1
      if b1 then do
        let b2 ← pCheckNext p .colon 2
        if b2 then parseObjectLiteral n p
        else parseGroup n p
      else parseGroup n p
    else if pCheck p .addition then parseFunctionCall n p
    else .error "Unexpected token in expression"

/-- The identifier-then-property-chain branch of parsePrimaryExpression. -/
def parsePrimaryIdentifier : Nat → PState → Except String (ASTNode × PState)
  | 0, _ => .error "out of fuel"
  | n + 1, p => do
    let (t, p) ← pAdvanceTok p
    parsePrimaryChainLoop n (.identifier t.value) p

def parsePrimaryChainLoop : Nat → ASTNode → PState → Except String (ASTNode × PState)
  | 0, _, _ => .error "out of fuel"
  | n + 1, node, p =>
    if pCheck p .accessOperator then do
      let (_, p) ← pAdvanceTok p
      let (propTok, p) ← pConsume p .identifier none "Expect property name after '->'"
      parsePrimaryChainLoop n (.propertyAccess node propTok.value false) p
    else .ok (node, p)

/-- The ordinary parenthesized-grouping branch of parsePrimaryExpression. -/
def parseGroup : Nat → PState → Except String (ASTNode × PState)
  | 0, _ => .error "out of fuel"
  | n + 1, p => do
    let (_, p) ← pConsume p .punctuation (some "(") "Expect '(' to open expression"
    let (expr, p) ← parseExpression n p
    let (_, p) ← pConsume p .punctuation (some ")") "Expect ')' to close expression"
    .ok (expr, p)

def parseTypeConstruction : Nat → PState → Except String (ASTNode × PState)
  | 0, _ => .error "out of fuel"
  | n + 1, p => do
    let (type, p) ← parseType n p
    let (_, p) ← pConsume p .punctuation (some "(") "Expect '(' to open type construction"
    let (values, p) ← parseTCValuesLoop n p []
    let (_, p) ← pConsume p .punctuation (some ")") "Expect ')' to close type construction"
    .ok (.typeConstruction type values, p)

def parseTCValuesLoop : Nat → PState → List ASTNode → Except String (List ASTNode × PState)
  | 0, _, _ => .error "out of fuel"
  | n + 1, p, acc => do
    let (v, p) ← parseExpression n p
    let acc := acc ++ [v]
    if pCheck p .punctuation ∧ pPeekValueIs p "," then do
      let (_, p) ← pAdvanceTok p
      parseTCValuesLoop n p acc
    else .ok (acc, p)

def parseIndexAccess : Nat → PState → Except String (ASTNode × PState)
  | 0, _ => .error "out of fuel"
  | n + 1, p => do
    let (objectId, p) ← parseIdentifier p
    let (_, p) ← pConsume p .accessOperator (some "->") "Expect '->' for index access"
    let (_, p) ← pConsume p .punctuation (some "(") "Expect '(' for index access"
    let (index, p) ← parseExpression n p
    let (_, p) ← pConsume p .punctuation (some ")") "Expect ')' after index"
    .ok (.indexAccess objectId index, p)

def parseIndexAssignment : Nat → PState → Except String (ASTNode × PState)
  | 0, _ => .error "out of fuel"
  | n + 1, p => do
    let (objectId, p) ← parseIdentifier p
    let (_, p) ← pConsume p .accessOperator (some "->") "Expect '->' for index access"
    let (_, p) ← pConsume p .punctuation (some "(") "Expect '(' for index access"
    let (index, p) ← parseExpression n p
    let (_, p) ← pConsume p .punctuation (some ")") "Expect ')' after index"
    let (_, p) ← pConsume p .equals (some "=") "Expect '=' for index assignment"
    let (value, p) ← parseExpression n p
    .ok (.indexAssignment objectId index value, p)

def parseObjectLiteral : Nat → PState → Except String (ASTNode × PState)
  | 0, _ => .error "out of fuel"
  | n + 1, p => do
    let (_, p) ← pConsume p .punctuation (some "(") "Expect '(' to start object literal"
    let (props, p) ← parseObjPropsLoop n p []
    let (_, p) ← pConsume p .punctuation (some ")") "Expect ')' to end object literal"
    .ok (.objectLiteral props, p)

def parseObjPropsLoop : Nat → PState → List (String × ASTNode) →
    Except String (List (String × ASTNode) × PState)
  | 0, _, _ => .error "out of fuel"
  | n + 1, p, acc => do
    let (keyTok, p) ← pConsume p .identifier none "Expect object property name"
    let (_, p) ← pConsume p .colon (some ":") "Expect ':' after property name"
    let (value, p) ← parseExpression n p
    let acc := mapSet acc keyTok.value value
    if pCheck p .punctuation ∧ pPeekValueIs p "," then do
      let (_, p) ← pConsume p .punctuation (some ",") "Expect ',' between object fields description"
      parseObjPropsLoop n p acc
    else .ok (acc, p)

def parseOutput : Nat → PState → Except String (ASTNode × PState)
  | 0, _ => .error "out of fuel"
  | n + 1, p => do
    let (_, p) ← pConsume p .output (some "^^") "Expect '^^' for output"
    let (value, p) ← parseExpression n p
    .ok (.output value, p)

def parseStructType : Nat → PState → Except String (ASTNode × PState)
  | 0, _ => .error "out of fuel"
  | n + 1, p => do
    let (keyTok, p) ← pConsume p .structType none "Expect struct type name declaration"
    let name := stripDollar keyTok.value
    let (_, p) ← pConsume p .functionDeclaration none "Expect sign '::' after struct type name"
    let (_, p) ← pConsume p .punctuation (some "\x7b") "Expect '\x7b' to start struct type"
    let (fields, p) ← parseStructFieldsLoop n p []
    let (_, p) ← pConsume p .punctuation (some "\x7d") "Expect '\x7d' to end struct type"
    .ok (.structType name fields, p)

def parseStructFieldsLoop : Nat → PState → List (String × String) →
    Except String (List (String × String) × PState)
  | 0, _, _ => .error "out of fuel"
  | n + 1, p, acc => do
    let (fnTok, p) ← pConsume p .identifier none "Expect field name"
    let (_, p) ← pConsume p .colon (some ":") "Expect ':' after field name"
    let (ftype, p) ← parseType n p
    let acc := mapSet acc fnTok.value ftype
    let (_, p) ← pConsume p .punctuation (some ";") "Expect ';' after field declaration"
    if pCheck p .identifier then parseStructFieldsLoop n p acc
    else .ok (acc, p)

/-- Parser.parseType: a scalar type keyword or one of the two parametric
forms `array<T>` / `object<StructName>`. -/
def parseType : Nat → PState → Except String (String × PState)
  | 0, _ => .error "out of fuel"
  | n + 1, p =>
    if pCheck p .type then do
      let (t, p) ← pAdvanceTok p
      if t.value = "array" ∨ t.value = "object" then do
        let (_, p) ← pConsume p .logicOperator (some "<") "Expect '<' for complex type"
        let (innerType, p) ←
          if t.value = "array" then parseType n p
          else do
            let (it, p) ← pConsume p .identifier none
              "Expect struct type name without \"$\" symbol"
            pure (it.value, p)
        let (_, p) ← pConsume p .logicOperator (some ">") "Expect '>' for complex type"
        .ok (t.value ++ "<" ++ innerType ++ ">", p)
      else .ok (t.value, p)
    else .error "Expect type declaration"

end

/-- Parser.parse / parseProgram on a freshly constructed Parser. -/
def parse (fuel : Nat) (tokens : List Token) : Except String ASTNode := do
  let (stmts, _) ← parseProgramLoop fuel ⟨tokens, 0, []⟩ []
  .ok (.program stmts)

/-- The OML.exec pipeline of `index.ts`: tokenize, parse, analyze with a
fresh SemanticAnalyzer (aborting on its error), then interpret with a
fresh OMLInterpreter. -/
def omlExec (fuel : Nat) (code : String) : Except String (EvalState × EResult) := do
  let tokens ← tokenize code
  let ast ← parse fuel tokens
  let _ ← analyze fuel ast
  .ok (runProgram fuel ast)

/-!
Claim programs.  Each definition is the AST the parser builds for the OML
surface text quoted in its comment (statement-level claims are settled on
ASTs directly; C9 and C10 exercise the tokenizer and parser themselves).
-/

/-- The program
`@f::none -> number | +s~string="abc"; ^^ s->(10); @f<-1; ~` followed by
`+x~number = <>f::(); ^^x;` — the function body indexes a 3-character
string at position 10, raising the Index-out-of-bounds runtime error
before the return statement is reached. -/
def progAbsorbedError : ASTNode := .program [
  .functionDeclaration "f" [] "number" [
    .variableDeclaration "s" "string" (some (.literal (.str "abc"))),
    .output (.indexAccess (.identifier "s") (.literal (.num ⟨10, 1⟩))),
    .returnNode (.literal (.num ⟨1, 1⟩))],
  .variableDeclaration "x" "number" (some (.functionCall "f" [])),
  .output (.identifier "x")]

/-- `$A::{f:number;} +a~object<A> = (f: 0); +b~object<A> = a;
<-b->f = 1; ^^ a->f;` — struct-instance aliasing observed through the
other variable. -/
def progStructShare : ASTNode := .program [
  .structType "A" [("f", "number")],
  .variableDeclaration "a" "object<A>" (some (.objectLiteral [("f", .literal (.num ⟨0, 1⟩))])),
  .variableDeclaration "b" "object<A>" (some (.identifier "a")),
  .assignment (.propertyAccess (.identifier "b") "f" true) (.literal (.num ⟨1, 1⟩)),
  .output (.propertyAccess (.identifier "a") "f" false)]

/-- `+a~string="abc"; +b~string=a; b->(0)="X"; ^^a; ^^b;` — string
index-assignment through the copy. -/
def progStringCopy : ASTNode := .program [
  .variableDeclaration "a" "string" (some (.literal (.str "abc"))),
  .variableDeclaration "b" "string" (some (.identifier "a")),
  .indexAssignment (.identifier "b") (.literal (.num ⟨0, 1⟩)) (.literal (.str "X")),
  .output (.identifier "a"),
  .output (.identifier "b")]

/-- `+a~number=1; +b~number=a; <-b=2;` -/
def progNumberCopy : ASTNode := .program [
  .variableDeclaration "a" "number" (some (.literal (.num ⟨1, 1⟩))),
  .variableDeclaration "b" "number" (some (.identifier "a")),
  .assignment (.identifier "b") (.literal (.num ⟨2, 1⟩))]

/-- `+a~bool=yes; +b~bool=a; <-b=no;` -/
def progBoolCopy : ASTNode := .program [
  .variableDeclaration "a" "bool" (some (.literal (.bool true))),
  .variableDeclaration "b" "bool" (some (.identifier "a")),
  .assignment (.identifier "b") (.literal (.bool false))]

/-- `+x~number=42; @f::none -> number | @f<-x; ~ +y~number=<>f::(); ^^y;`
— the callee's body reads the caller's local `x`, which it was never
passed. -/
def progCalleeReadsCaller : ASTNode := .program [
  .variableDeclaration "x" "number" (some (.literal (.num ⟨42, 1⟩))),
  .functionDeclaration "f" [] "number" [.returnNode (.identifier "x")],
  .variableDeclaration "y" "number" (some (.functionCall "f" [])),
  .output (.identifier "y")]

/-- `+x~number=1; ?[yes] | +x~number=2; ~ ^^x;` — a declaration inside the
taken branch arm, shadowing-checked by the analyzer in a nested scope. -/
def progBranchShadow : ASTNode := .program [
  .variableDeclaration "x" "number" (some (.literal (.num ⟨1, 1⟩))),
  .branching (.literal (.bool true))
    [.variableDeclaration "x" "number" (some (.literal (.num ⟨2, 1⟩)))] [],
  .output (.identifier "x")]

/-- `?[yes] | +t~number; ~ ^^t;` — using a branch-arm declaration after
the branch. -/
def progBranchLeak : ASTNode := .program [
  .branching (.literal (.bool true)) [.variableDeclaration "t" "number" none] [],
  .output (.identifier "t")]

/-- `?[yes] | ^^"T"; ~ : | ^^"F"; ~` -/
def progBranchTrue : ASTNode := .program [
  .branching (.literal (.bool true))
    [.output (.literal (.str "T"))] [.output (.literal (.str "F"))]]

/-- `?[no] | ^^"T"; ~ : | ^^"F"; ~` -/
def progBranchFalse : ASTNode := .program [
  .branching (.literal (.bool false))
    [.output (.literal (.str "T"))] [.output (.literal (.str "F"))]]

/-- `+c~number=0; %[c<1] | +t~number=5; <-c=c+1; ~ ^^c;` — a checked
program whose loop body declares `t`; nothing references `t` afterwards,
so the analysis succeeds while the binding's fate after the loop is
observable in the interpreter's final state. -/
def progLoopDecl : ASTNode := .program [
  .variableDeclaration "c" "number" (some (.literal (.num ⟨0, 1⟩))),
  .loop (.binaryExpression (.identifier "c") "<" (.literal (.num ⟨1, 1⟩)))
    [.variableDeclaration "t" "number" (some (.literal (.num ⟨5, 1⟩))),
     .assignment (.identifier "c") (.binaryExpression (.identifier "c") "+" (.literal (.num ⟨1, 1⟩)))],
  .output (.identifier "c")]

/-- `%[no] | +t~number; ~ ^^t;` — using a loop-body declaration after the
loop. -/
def progLoopLeak : ASTNode := .program [
  .loop (.literal (.bool false)) [.variableDeclaration "t" "number" none],
  .output (.identifier "t")]

/-- `@f::none -> number | ?[yes] | @f<-1; ~ ~` — a return in only one arm
of the only branching, nowhere else. -/
def progReturnOneArm : ASTNode := .program [
  .functionDeclaration "f" [] "number"
    [.branching (.literal (.bool true)) [.returnNode (.literal (.num ⟨1, 1⟩))] []]]

/-- A function body whose only return sits inside a loop body, inside a
branching's else arm — two levels below the top-level statement list. -/
def body5deep : List ASTNode :=
  [.loop (.literal (.bool false))
    [.branching (.literal (.bool true)) [] [.returnNode (.literal (.num ⟨1, 1⟩))]]]

def progReturnDeep : ASTNode := .program [.functionDeclaration "f" [] "number" body5deep]

/-- A non-void function body with no return anywhere. -/
def bodyNoReturn : List ASTNode := [.output (.literal (.num ⟨1, 1⟩))]

def progNoReturn : ASTNode := .program [.functionDeclaration "f" [] "number" bodyNoReturn]

/-- `@g::none -> void | ~` — void functions are exempt from the check. -/
def progVoidNoReturn : ASTNode := .program [.functionDeclaration "g" [] "void" []]

/-- `+a~number;` -/
def progDeclVar : ASTNode := .program [.variableDeclaration "a" "number" none]

/-- `$A::{x:number;}` -/
def progDeclStruct : ASTNode := .program [.structType "A" [("x", "number")]]

/-- `^^1;` — a program with no declaration of any kind. -/
def progNoDecl : ASTNode := .program [.output (.literal (.num ⟨1, 1⟩))]

/-- `$A::{x:number;} $B::{x:number;} +v~object<A> = (x:1);` — the literal
structurally matches both registered structs. -/
def progAmbiguousLiteral : ASTNode := .program [
  .structType "A" [("x", "number")],
  .structType "B" [("x", "number")],
  .variableDeclaration "v" "object<A>" (some (.objectLiteral [("x", .literal (.num ⟨1, 1⟩))]))]

/-- As above but declared `object<B>`: exposes which struct the literal
resolved to. -/
def progAmbiguousLiteralB : ASTNode := .program [
  .structType "A" [("x", "number")],
  .structType "B" [("x", "number")],
  .variableDeclaration "w" "object<B>" (some (.objectLiteral [("x", .literal (.num ⟨1, 1⟩))]))]

/-- `$A::{x:number;} +v~object<A> = (x:1,y:2);` — the spec's unmatched
object-literal scenario. -/
def progUnmatchedLiteral : ASTNode := .program [
  .structType "A" [("x", "number")],
  .variableDeclaration "v" "object<A>"
    (some (.objectLiteral [("x", .literal (.num ⟨1, 1⟩)), ("y", .literal (.num ⟨2, 1⟩))]))]

/-- `$A::{x:number;} +v~object<A> = (x:yes);` — matched struct, wrong
field value type. -/
def progFieldTypeMismatch : ASTNode := .program [
  .structType "A" [("x", "number")],
  .variableDeclaration "v" "object<A>" (some (.objectLiteral [("x", .literal (.bool true))]))]

/-- `$A::{x:number;} +v~object<A> = (x:1);` — exact single match. -/
def progExactLiteral : ASTNode := .program [
  .structType "A" [("x", "number")],
  .variableDeclaration "v" "object<A>" (some (.objectLiteral [("x", .literal (.num ⟨1, 1⟩))]))]

/-- `+s~string = string(3);` -/
def progStringCtor : ASTNode := .program [
  .variableDeclaration "s" "string" (some (.typeConstruction "string" [.literal (.num ⟨3, 1⟩)]))]

/-- `+arr~array<number> = array<number>(3);` -/
def progArrayCtor : ASTNode := .program [
  .variableDeclaration "arr" "array<number>"
    (some (.typeConstruction "array<number>" [.literal (.num ⟨3, 1⟩)]))]

/-- The C9 scenario source text. -/
def src9 : String := "+a~number=3*2+4; ^^a;"

/-- The token sequence the tokenizer produces for `src9`. -/
def toks9 : List Token := [
  ⟨.operator, "+", 1, 1, 0⟩,
  ⟨.identifier, "a", 1, 2, 1⟩,
  ⟨.punctuation, "~", 1, 3, 2⟩,
  ⟨.type, "number", 1, 4, 3⟩,
  ⟨.equals, "=", 1, 10, 9⟩,
  ⟨.number, "3", 1, 11, 10⟩,
  ⟨.operator, "*", 1, 12, 11⟩,
  ⟨.number, "2", 1, 13, 12⟩,
  ⟨.operator, "+", 1, 14, 13⟩,
  ⟨.number, "4", 1, 15, 14⟩,
  ⟨.punctuation, ";", 1, 16, 15⟩,
  ⟨.output, "^^", 1, 18, 17⟩,
  ⟨.identifier, "a", 1, 20, 19⟩,
  ⟨.punctuation, ";", 1, 21, 20⟩]

/-- The AST the parser builds from `toks9`: the initializer is
`(3 * 2) + 4` — multiplication bound tighter than addition. -/
def ast9 : ASTNode := .program [
  .variableDeclaration "a" "number" (some (.binaryExpression
    (.binaryExpression (.literal (.num ⟨3, 1⟩)) "*" (.literal (.num ⟨2, 1⟩)))
    "+" (.literal (.num ⟨4, 1⟩)))),
  .output (.identifier "a")]

/-- The analyzer state after checking `ast9`. -/
def aState9 : AState := ⟨[[("a", "number")]], [], none, []⟩

/-- The type and value keywords whose patterns run before the identifier
pattern. -/
def keywordSpellings : List String :=
  ["array", "void", "number", "bool", "string", "object", "none", "yes", "no"]

/-- `@g::none -> void | ~` (used to observe function-registry persistence
across analyzer runs). -/
def progDeclFunc : ASTNode := .program [.functionDeclaration "g" [] "void" []]

/-- An interpreter state with `f` registered whose body is
`+z~number=9; ^^z; @f<-z;`: the body binds a local, emits output, and
returns. -/
def callDemoState : EvalState :=
  ⟨[("x", .num ⟨1, 1⟩)],
   [("f", ⟨[], "number",
     [.variableDeclaration "z" "number" (some (.literal (.num ⟨9, 1⟩))),
      .output (.identifier "z"),
      .returnNode (.identifier "z")]⟩)],
   [], [], []⟩

/-- Like `callDemoState` but `f`'s body has no return statement. -/
def callDemoStateNoRet : EvalState :=
  ⟨[("x", .num ⟨1, 1⟩)],
   [("f", ⟨[], "number",
     [.variableDeclaration "z" "number" (some (.literal (.num ⟨9, 1⟩))),
      .output (.identifier "z")]⟩)],
   [], [], []⟩

/-- C1 counterexample: the claim says an error raised during a function
body's execution is never absorbed at the call boundary as the function's
returned value.  In the checked program `progAbsorbedError` the
Index-out-of-bounds error raised inside `f`'s body is caught by
visitFunctionCallNode's catch and becomes the call's result: the run
completes normally with `x` bound to the Error object, which the final
output statement then displays. -/
theorem C1_counterexample :
    (analyze 100 progAbsorbedError).isOk = true
    ∧ (runProgram 100 progAbsorbedError).2 = .ok .undef
    ∧ mapGet (runProgram 100 progAbsorbedError).1.vars "x"
        = some (.errObj "Index out of bounds")
    ∧ displayedOutput (runProgram 100 progAbsorbedError).1
        = ["Error: Index out of bounds"] :=
  ⟨by decide, rfl, rfl, rfl⟩

/-- C1 amended: the evaluator implements function-return control transfer
with the very mechanism of error propagation — visitReturnNode throws the
computed value into the single exception channel, and
visitFunctionCallNode's catch absorbs whatever payload arrives (a returned
value or a raised error) as the call's result, restoring the caller's
binding table either way. -/
theorem C1_amended :
    (∀ (n : Nat) (e : ASTNode) (s s' : EvalState) (v : Value),
      evalNode n e s = (s', .ok v) →
      evalNode (n + 1) (.returnNode e) s = (s', .thrown v))
    ∧ (∀ (n : Nat) (name : String) (args : List ASTNode) (func : FuncSig)
        (s s1 s2 : EvalState) (r t : Value),
      mapGet s.functions name = some func →
      evalBindArgs n func.parameters args s = (s1, .ok r) →
      execStmts n func.body s1 = (s2, .thrown t) →
      evalNode (n + 1) (.functionCall name args) s = ({ s2 with vars := s.vars }, .ok t)) := by
  constructor
  · intro n e s s' v h
    simp only [evalNode, h]
  · intro n name args func s s1 s2 r t h1 h2 h3
    simp only [evalNode, h1, h2, h3]

/-- C1 amended, witness: both parts of `C1_amended` instantiated at
concrete inputs. -/
theorem C1_amended_witness :
    evalNode 2 (.returnNode (.literal (.num ⟨1, 1⟩))) freshInterpreter
      = (freshInterpreter, .thrown (.num ⟨1, 1⟩))
    ∧ evalNode 11 (.functionCall "f" []) callDemoState
      = ({ { callDemoState with
              vars := mapSet callDemoState.vars "z" (.num ⟨9, 1⟩),
              output := [.num ⟨9, 1⟩] } with vars := callDemoState.vars },
         .ok (.num ⟨9, 1⟩)) :=
  ⟨C1_amended.1 1 (.literal (.num ⟨1, 1⟩)) freshInterpreter freshInterpreter (.num ⟨1, 1⟩) rfl,
   C1_amended.2 10 "f" [] ⟨[], "number",
     [.variableDeclaration "z" "number" (some (.literal (.num ⟨9, 1⟩))),
      .output (.identifier "z"),
      .returnNode (.identifier "z")]⟩
     callDemoState _ _ Value.undef (.num ⟨9, 1⟩) rfl rfl rfl⟩

/-- C2: the value/reference asymmetry.  Struct instances are shared: after
`+b~object<A> = a`, both variables hold the same heap reference, mutating
`b->f` rewrites the shared record, and reading `a->f` observes the new
value.  Strings, numbers and booleans are copied: rebinding or
index-assigning through the second variable leaves the first variable's
value unchanged.  (The interpreter's runtime value model contains no array
values at all — every type-construction call faults before producing one —
so no program can exercise array mutation.) -/
theorem C2_value_reference_asymmetry :
    (analyze 100 progStructShare).isOk = true
    ∧ mapGet (runProgram 100 progStructShare).1.vars "a" = some (.objRef 0)
    ∧ mapGet (runProgram 100 progStructShare).1.vars "b" = some (.objRef 0)
    ∧ (runProgram 100 progStructShare).1.heap = [[("f", .num ⟨1, 1⟩)]]
    ∧ displayedOutput (runProgram 100 progStructShare).1 = ["1"]
    ∧ (analyze 100 progStringCopy).isOk = true
    ∧ mapGet (runProgram 100 progStringCopy).1.vars "a" = some (.str "abc")
    ∧ mapGet (runProgram 100 progStringCopy).1.vars "b" = some (.str "Xbc")
    ∧ displayedOutput (runProgram 100 progStringCopy).1 = ["abc", "Xbc"]
    ∧ (analyze 100 progNumberCopy).isOk = true
    ∧ mapGet (runProgram 100 progNumberCopy).1.vars "a" = some (.num ⟨1, 1⟩)
    ∧ mapGet (runProgram 100 progNumberCopy).1.vars "b" = some (.num ⟨2, 1⟩)
    ∧ (analyze 100 progBoolCopy).isOk = true
    ∧ mapGet (runProgram 100 progBoolCopy).1.vars "a" = some (.bool true)
    ∧ mapGet (runProgram 100 progBoolCopy).1.vars "b" = some (.bool false) :=
  ⟨by decide, rfl, rfl, rfl, rfl, by decide, rfl, rfl, rfl, by decide, rfl, rfl,
   by decide, rfl, rfl⟩

/-- C3 counterexample: the claim says a call builds a fresh flat binding
table containing only the evaluated arguments, so the callee has no access
to the caller's locals.  In the checked program `progCalleeReadsCaller`
the zero-argument callee returns the caller's local `x` — the parameters
are bound into the caller's own (shared) table, not a fresh one. -/
theorem C3_counterexample :
    (analyze 100 progCalleeReadsCaller).isOk = true
    ∧ displayedOutput (runProgram 100 progCalleeReadsCaller).1 = ["42"]
    ∧ mapGet (runProgram 100 progCalleeReadsCaller).1.vars "y" = some (.num ⟨42, 1⟩) :=
  ⟨by decide, rfl, rfl⟩

/-- C3 amended: a call snapshot-saves the caller's binding table, binds
the evaluated arguments into that same shared table (the callee sees the
caller's bindings plus the parameters), and whenever the call completes it
restores the snapshot verbatim; a body that finishes without a return
yields null. -/
theorem C3_amended :
    (∀ (n : Nat) (name : String) (args : List ASTNode) (s s' : EvalState) (v : Value),
      evalNode (n + 1) (.functionCall name args) s = (s', .ok v) → s'.vars = s.vars)
    ∧ (∀ (n : Nat) (name : String) (args : List ASTNode) (func : FuncSig)
        (s s1 s2 : EvalState) (r r2 : Value),
      mapGet s.functions name = some func →
      evalBindArgs n func.parameters args s = (s1, .ok r) →
      execStmts n func.body s1 = (s2, .ok r2) →
      evalNode (n + 1) (.functionCall name args) s = ({ s2 with vars := s.vars }, .ok .null)) := by
  constructor
  · intro n name args s s' v h
    simp only [evalNode] at h
    split at h
    · exact absurd (congrArg Prod.snd h) (by simp)
    · split at h
      · split at h
        · have h1 := congrArg Prod.fst h
          simp at h1
          rw [← h1]
        · have h1 := congrArg Prod.fst h
          simp at h1
          rw [← h1]
        · exact absurd (congrArg Prod.snd h) (by simp)
      · next hne => exact absurd h (hne _ _)
  · intro n name args func s s1 s2 r r2 h1 h2 h3
    simp only [evalNode, h1, h2, h3]

/-- C3 amended, witness: both parts of `C3_amended` instantiated at
concrete calls (the body binds a local and emits output, so the final
state differs from the initial one everywhere except the restored
variable table). -/
theorem C3_amended_witness :
    ({ callDemoState with output := [.num ⟨9, 1⟩] } : EvalState).vars = callDemoState.vars
    ∧ evalNode 11 (.functionCall "f" []) callDemoStateNoRet
      = ({ { callDemoStateNoRet with
              vars := mapSet callDemoStateNoRet.vars "z" (.num ⟨9, 1⟩),
              output := [.num ⟨9, 1⟩] } with vars := callDemoStateNoRet.vars },
         .ok .null) :=
  ⟨C3_amended.1 10 "f" [] callDemoState
     ({ callDemoState with output := [.num ⟨9, 1⟩] }) (.num ⟨9, 1⟩) rfl,
   C3_amended.2 10 "f" [] ⟨[], "number",
     [.variableDeclaration "z" "number" (some (.literal (.num ⟨9, 1⟩))),
      .output (.identifier "z")]⟩
     callDemoStateNoRet _ _ Value.undef Value.undef rfl rfl rfl⟩

/-- C4 counterexample: the claim says a variable declared inside a branch
arm neither remains bound nor overwrites an outer binding of the same name
after the branch finishes.  The checked program `progBranchShadow`
(accepted because the analyzer does give the arm a fresh scope) prints `2`
— the evaluator ran the arm's declaration directly in its flat table,
overwriting the outer `x`, and the binding persists after the branch. -/
theorem C4_counterexample :
    (analyze 100 progBranchShadow).isOk = true
    ∧ displayedOutput (runProgram 100 progBranchShadow).1 = ["2"]
    ∧ mapGet (runProgram 100 progBranchShadow).1.vars "x" = some (.num ⟨2, 1⟩) :=
  ⟨by decide, rfl, rfl⟩

/-- C4 amended: the Semantic Analyzer creates and discards a nested scope
for branch arms and loop bodies (declarations inside do not survive the
construct and may shadow outer names), and the Evaluator executes exactly
one of a branching's two statement lists — but directly in its single flat
binding table, so a declaration made inside the taken arm or a loop body
persists after the construct and overwrites any same-named outer binding. -/
theorem C4_amended :
    (analyze 100 progBranchLeak) = .error "Undeclared variable 't'."
    ∧ (analyze 100 progLoopLeak) = .error "Undeclared variable 't'."
    ∧ (analyze 100 progBranchShadow).isOk = true
    ∧ displayedOutput (runProgram 100 progBranchTrue).1 = ["T"]
    ∧ displayedOutput (runProgram 100 progBranchFalse).1 = ["F"]
    ∧ (analyze 100 progLoopDecl).isOk = true
    ∧ mapGet (runProgram 100 progLoopDecl).1.vars "t" = some (.num ⟨5, 1⟩)
    ∧ mapGet (runProgram 100 progBranchShadow).1.vars "x" = some (.num ⟨2, 1⟩) :=
  ⟨rfl, rfl, by decide, rfl, rfl, by decide, rfl, rfl⟩

/-- C5 counterexample: the claim says a return present in only one arm of
a branching does not satisfy the missing-return approximation, so analyze
must report a missing-return error for `progReturnOneArm` (whose only
return sits in the true arm of its only branching).  The analysis
succeeds: hasReturnStatement accepts a return in either arm. -/
theorem C5_counterexample : (analyze 100 progReturnOneArm).isOk = true := by decide

/-- C5 amended: for a function whose declared return type is not void,
analyze reports the missing-return error exactly when the recursive
hasReturnStatement search finds no ReturnNode — a return anywhere in the
statement list, in either arm of any branching at any depth, or inside any
loop body at any depth, satisfies the check.  The two general parts state
the error and success directions of the source's check (with the
intermediate analysis states explicit); the closed parts pin the behaviour
on deep-nested, absent, and void-exempt returns. -/
theorem C5_amended :
    (∀ (n : Nat) (name : String) (params : List (String × String)) (body : List ASTNode)
        (s sP s2 : AState),
      mapHas s.functions name = false →
      declParams params (enterScope { s with
        functions := mapSet s.functions name ⟨params, "number", body⟩,
        currentFunctionReturnType := some "number" }) = .ok sP →
      analyzeStmts n body sP = .ok s2 →
      s2.currentFunctionReturnType ≠ some "void" →
      hasReturnStatement n body = false →
      analyzeNodeGo (n + 1) (.functionDeclaration name params "number" body) s =
        .error ("Missing return statement in function '" ++ name ++ "'."))
    ∧ (∀ (n : Nat) (name : String) (params : List (String × String)) (body : List ASTNode)
        (s sP s2 : AState) (rs : Option String × AState),
      mapHas s.functions name = false →
      declParams params (enterScope { s with
        functions := mapSet s.functions name ⟨params, "number", body⟩,
        currentFunctionReturnType := some "number" }) = .ok sP →
      analyzeStmts n body sP = .ok s2 →
      s2.currentFunctionReturnType ≠ some "void" →
      analyzeNodeGo (n + 1) (.functionDeclaration name params "number" body) s = .ok rs →
      hasReturnStatement n body = true)
    ∧ (analyze 100 progReturnDeep).isOk = true
    ∧ hasReturnStatement 99 body5deep = true
    ∧ analyze 100 progNoReturn = .error "Missing return statement in function 'f'."
    ∧ hasReturnStatement 99 bodyNoReturn = false
    ∧ (analyze 100 progVoidNoReturn).isOk = true := by
  refine ⟨?_, ?_, by decide, by decide, rfl, by decide, by decide⟩
  · intro n name params body s sP s2 h0 h1 h2 h3 h4
    simp only [analyzeNodeGo, h0, h1, h2, Bool.false_eq_true, if_false, bind, Except.bind]
    rw [if_pos ⟨h3, h4⟩]
  · intro n name params body s sP s2 rs h0 h1 h2 h3 h5
    by_cases h4 : hasReturnStatement n body = true
    · exact h4
    · exfalso
      simp only [analyzeNodeGo, h0, h1, h2, Bool.false_eq_true, if_false, bind,
        Except.bind] at h5
      rw [if_pos ⟨h3, by simpa using h4⟩] at h5
      exact Except.noConfusion h5

/-- C5 amended, witness: the two general parts of `C5_amended`
instantiated on concrete function bodies. -/
theorem C5_amended_witness :
    analyzeNodeGo 51 (.functionDeclaration "h" [] "number" bodyNoReturn) freshAnalyzer =
      .error "Missing return statement in function 'h'."
    ∧ hasReturnStatement 50 body5deep = true := by
  constructor
  · exact C5_amended.1 50 "h" [] bodyNoReturn freshAnalyzer _ _ rfl rfl rfl
      (by decide) (by decide)
  · exact C5_amended.2.1 50 "h" [] body5deep freshAnalyzer _ _ _ rfl rfl rfl
      (by decide) rfl

/-- C6 counterexample: the claim says a second analyze on the same AST
with the same analyzer instance succeeds just like the first.  After the
first (successful) run of `+a~number;`, the top-level scope still holds
`a`, so the second run fails with the already-declared error. -/
theorem C6_counterexample :
    (analyze 100 progDeclVar).isOk = true
    ∧ (analyze 100 progDeclVar).bind (analyzeWith 100 progDeclVar) =
        .error "Variable 'a' is already declared." :=
  ⟨by decide, rfl⟩

/-- C6 amended: re-running analyze on the same AST with the same analyzer
instance is not idempotent — the scope table and the function and
struct-type registries persist across calls, so the second run fails with
an already-declared error for any program declaring a top-level variable,
function, or struct type; only declaration-free programs analyze the same
twice (a fresh analyzer per run, as index.ts constructs, is what makes
repeated analysis succeed). -/
theorem C6_amended :
    (analyze 100 progDeclVar).bind (analyzeWith 100 progDeclVar) =
      .error "Variable 'a' is already declared."
    ∧ (analyze 100 progDeclFunc).bind (analyzeWith 100 progDeclFunc) =
      .error "Function 'g' is already declared."
    ∧ (analyze 100 progDeclStruct).bind (analyzeWith 100 progDeclStruct) =
      .error "Struct type 'A' is already declared."
    ∧ ((analyze 100 progNoDecl).bind (analyzeWith 100 progNoDecl)).isOk = true :=
  ⟨rfl, rfl, rfl, by decide⟩

/-- C7 counterexample: the claim says a literal matching more than one
registered struct type is rejected as ambiguous.  With `$A::{x:number;}`
and `$B::{x:number;}` both registered, the literal `(x:1)` matches both,
yet analysis succeeds — getType simply returns the first match. -/
theorem C7_counterexample : (analyze 100 progAmbiguousLiteral).isOk = true := by decide

/-- C7 amended: analysis accepts an object literal exactly when it
structurally matches at least one registered struct type, resolving it to
the first match in registration order (several matches are not an error);
a literal matching no struct raises the unmatched-literal SemanticError
(in particular `(x:1,y:2)` against only `$A::{x:number;}`), and each field
value's type must equal the matched struct's declared field type. -/
theorem C7_amended :
    analyze 100 progUnmatchedLiteral =
      .error "Object literal does not match any declared struct type."
    ∧ analyze 100 progAmbiguousLiteralB =
      .error "Type mismatch: expected 'object<B>', got 'object<A>' in variable 'w'."
    ∧ (analyze 100 progExactLiteral).isOk = true
    ∧ analyze 100 progFieldTypeMismatch =
      .error "Type mismatch for property 'x': expected 'number', got 'bool'."
    ∧ objectLiteralGetType [("x", .literal (.num ⟨1, 1⟩))]
        [("A", [("x", "number")]), ("B", [("x", "number")])] = some "object<A>" :=
  ⟨rfl, rfl, by decide, rfl, rfl⟩

/-- C8: the Semantic Analyzer accepts both `string(3)` and
`array<number>(3)`, but the interpreter faults on every type-construction
call: visitTypeConstructionNode reads `node.value`, a field
TypeConstructionNode does not have (its constructor arguments live in
`values`), so the `.accept` read raises a TypeError before the
space-string / copy / array logic can run — contradicting the claim, the
spec's description, and the repo's own interpreter tests. -/
theorem C8_bug :
    (analyze 100 progStringCtor).isOk = true
    ∧ (runProgram 100 progStringCtor).2 = .thrown (.errObj jsUndefinedAcceptTypeError)
    ∧ (analyze 100 progArrayCtor).isOk = true
    ∧ (runProgram 100 progArrayCtor).2 = .thrown (.errObj jsUndefinedAcceptTypeError) :=
  ⟨by decide, rfl, by decide, rfl⟩

theorem tokenize_src9 : tokenize src9 = .ok toks9 := rfl

theorem parse_toks9 : parse 30 toks9 = .ok ast9 := rfl

theorem analyze_ast9 : analyze 30 ast9 = .ok aState9 := rfl

/-- C9: `+a~number=3*2+4; ^^a;` through the full pipeline.  The tokens,
the parsed AST — whose initializer is `(3*2)+4`, multiplication bound
tighter than addition — the successful analysis, the successful run, and
the output sequence, whose single entry displays as "10" (getOutput yields
"10"). -/
theorem C9_pipeline :
    tokenize src9 = .ok toks9
    ∧ parse 30 toks9 = .ok ast9
    ∧ analyze 30 ast9 = .ok aState9
    ∧ omlExec 30 src9 = .ok (runProgram 30 ast9)
    ∧ (runProgram 30 ast9).2 = .ok .undef
    ∧ displayedOutput (runProgram 30 ast9).1 = ["10"]
    ∧ getOutput (runProgram 30 ast9).1 = "10" := by
  refine ⟨tokenize_src9, parse_toks9, analyze_ast9, ?_, rfl, rfl, rfl⟩
  simp only [omlExec, tokenize_src9, parse_toks9, analyze_ast9, bind, Except.bind]

/-- C10 counterexample: the claim says the characters after the keyword
come out as a single separate Identifier token.  For the identifier
spelling `numberbool` (keyword `number` followed by the identifier
characters `bool`), the remainder is emitted as a Type token, not an
Identifier token. -/
theorem C10_counterexample :
    tokenize "numberbool" = .ok [⟨.type, "number", 1, 1, 0⟩, ⟨.type, "bool", 1, 7, 6⟩]
    ∧ TokenType.type ≠ TokenType.identifier :=
  ⟨rfl, by decide⟩

/-- C10 amended: because the Type/None/Bool patterns run before the
identifier pattern with no word-boundary check, the first token produced
for any text beginning with one of the nine keyword spellings is a keyword
token (Type, None or Bool) — never a single Identifier token spanning the
whole name — whatever characters follow; for `numbers` specifically the
result is the Type token `number` followed by the Identifier token `s`. -/
theorem C10_amended :
    (∀ kw ∈ keywordSpellings, ∀ s : List Char,
      ∃ tt matched rest, getNextToken (kw.data ++ s) = some (tt, matched, rest) ∧
        (tt = TokenType.type ∨ tt = TokenType.noneKw ∨ tt = TokenType.bool))
    ∧ tokenize "numbers" = .ok [⟨.type, "number", 1, 1, 0⟩, ⟨.identifier, "s", 1, 7, 6⟩] := by
  constructor
  · intro kw hkw s
    simp only [keywordSpellings, List.mem_cons, List.mem_singleton,
      List.not_mem_nil, or_false] at hkw
    rcases hkw with rfl | rfl | rfl | rfl | rfl | rfl | rfl | rfl | rfl
    · exact ⟨.type, _, s, rfl, Or.inl rfl⟩
    · exact ⟨.type, _, s, rfl, Or.inl rfl⟩
    · exact ⟨.type, _, s, rfl, Or.inl rfl⟩
    · exact ⟨.type, _, s, rfl, Or.inl rfl⟩
    · exact ⟨.type, _, s, rfl, Or.inl rfl⟩
    · exact ⟨.type, _, s, rfl, Or.inl rfl⟩
    · exact ⟨.noneKw, _, s, rfl, Or.inr (Or.inl rfl)⟩
    · exact ⟨.bool, _, s, rfl, Or.inr (Or.inr rfl)⟩
    · -- "no": the None pattern reads two characters into the suffix
      match s with
      | [] => exact ⟨.bool, _, _, rfl, Or.inr (Or.inr rfl)⟩
      | c :: s2 =>
        by_cases hc : c = 'n'
        · subst hc
          match s2 with
          | [] => exact ⟨.bool, _, _, rfl, Or.inr (Or.inr rfl)⟩
          | c2 :: s3 =>
            by_cases hc2 : c2 = 'e'
            · subst hc2
              exact ⟨.noneKw, _, _, rfl, Or.inr (Or.inl rfl)⟩
            · refine ⟨.bool, ['n', 'o'], 'n' :: c2 :: s3, ?_, Or.inr (Or.inr rfl)⟩
              simp [getNextToken, firstTokenMatch, tokenPatterns, singleLineCommentMatcher,
                multiLineCommentMatcher, whitespaceMatcher, litMatcher, altMatcher, litMatch,
                isJsWhitespace, hc2]
        · refine ⟨.bool, ['n', 'o'], c :: s2, ?_, Or.inr (Or.inr rfl)⟩
          simp [getNextToken, firstTokenMatch, tokenPatterns, singleLineCommentMatcher,
            multiLineCommentMatcher, whitespaceMatcher, litMatcher, altMatcher, litMatch,
            isJsWhitespace, hc]
  · rfl

/-- C10 amended, witness: the general part of `C10_amended` instantiated
at the keyword `number` and the suffix `s`. -/
theorem C10_amended_witness :
    "number" ∈ keywordSpellings
    ∧ ∃ tt matched rest, getNextToken ("number".data ++ "s".data) = some (tt, matched, rest) ∧
        (tt = TokenType.type ∨ tt = TokenType.noneKw ∨ tt = TokenType.bool) :=
  ⟨by decide, C10_amended.1 "number" (by decide) "s".data⟩
